import Mathlib

/-!
Verification of the media-acquisition core of the space-news-generator
repository: circuit breaker, health tracker, content cache, retry
executor, acquisition orchestrator, resource governor and query
normalization, shallowly embedded from the Python sources
(`api_manager.py`, `database_client.py`, `resource_manager.py`).

Time is modelled as an integer number of seconds (`time.time()` /
`datetime.now()`); ISO-formatted timestamp comparisons in the store are
order-isomorphic to comparisons of the underlying instants, so they are
modelled by comparisons on ℤ.  The Supabase tables are modelled as Lean
lists of rows; `select`/`eq`/`gt` filters become list filters, `insert`
appends, `update ... eq id` maps over the rows with the given id.
Python exceptions are modelled with `Except`.
-/

namespace SpaceNews

/-! ## Circuit breaker (`api_manager.py`, class `CircuitBreaker`)

`failures` and `last_failure_time` are dictionaries keyed by source
name; a key that is absent is modelled by `none` (matching the
`source not in self.failures` test and the `.get(source, 0)` default). -/

structure CircuitBreaker where
  failure_threshold : Nat
  timeout : ℤ
  failures : String → Option Nat
  last_failure_time : String → Option ℤ

/-- `CircuitBreaker()` with the default arguments `failure_threshold=5`,
`timeout=60` and empty dictionaries. -/
def CircuitBreaker.default : CircuitBreaker :=
  { failure_threshold := 5
    timeout := 60
    failures := fun _ => none
    last_failure_time := fun _ => none }

/-- `CircuitBreaker.is_open(source)`.  The check has a side effect: when
the count is over threshold but the timeout has elapsed, the count is
reset to 0.  It therefore returns the boolean together with the
post-state.  `now` stands for `time.time()`. -/
def CircuitBreaker.is_open (cb : CircuitBreaker) (source : String) (now : ℤ) :
    Bool × CircuitBreaker :=
  match cb.failures source with
  | none => (false, cb)
  | some n =>
    if n ≥ cb.failure_threshold then
      if now - (cb.last_failure_time source).getD 0 < cb.timeout then
        (true, cb)
      else
        (false, { cb with failures := fun s => if s = source then some 0 else cb.failures s })
    else
      (false, cb)

/-- `CircuitBreaker.record_success(source)`: `self.failures[source] = 0`. -/
def CircuitBreaker.record_success (cb : CircuitBreaker) (source : String) : CircuitBreaker :=
  { cb with failures := fun s => if s = source then some 0 else cb.failures s }

/-- `CircuitBreaker.record_failure(source)`:
`self.failures[source] = self.failures.get(source, 0) + 1` and
`self.last_failure_time[source] = time.time()`. -/
def CircuitBreaker.record_failure (cb : CircuitBreaker) (source : String) (now : ℤ) :
    CircuitBreaker :=
  { cb with
    failures := fun s => if s = source then some ((cb.failures source).getD 0 + 1) else cb.failures s
    last_failure_time := fun s => if s = source then some now else cb.last_failure_time s }

/-- The recorded failure count of a source (0 when the key is absent,
matching `self.failures.get(source, 0)`). -/
def CircuitBreaker.failCount (cb : CircuitBreaker) (source : String) : Nat :=
  (cb.failures source).getD 0

/-- The recorded last-failure time of a source
(`self.last_failure_time.get(source, 0)`). -/
def CircuitBreaker.lastFailure (cb : CircuitBreaker) (source : String) : ℤ :=
  (cb.last_failure_time source).getD 0

/-- A sequence of consecutive `record_failure` calls at the given times. -/
def CircuitBreaker.recordFailures (cb : CircuitBreaker) (source : String) (ts : List ℤ) :
    CircuitBreaker :=
  ts.foldl (fun c t => c.record_failure source t) cb

theorem failCount_record_failure (cb : CircuitBreaker) (source : String) (now : ℤ) :
    (cb.record_failure source now).failCount source = cb.failCount source + 1 := by
  simp [CircuitBreaker.record_failure, CircuitBreaker.failCount]

theorem lastFailure_record_failure (cb : CircuitBreaker) (source : String) (now : ℤ) :
    (cb.record_failure source now).lastFailure source = now := by
  simp [CircuitBreaker.record_failure, CircuitBreaker.lastFailure]

theorem threshold_record_failure (cb : CircuitBreaker) (source : String) (now : ℤ) :
    (cb.record_failure source now).failure_threshold = cb.failure_threshold := by
  simp [CircuitBreaker.record_failure]

theorem timeout_record_failure (cb : CircuitBreaker) (source : String) (now : ℤ) :
    (cb.record_failure source now).timeout = cb.timeout := by
  simp [CircuitBreaker.record_failure]

theorem failCount_recordFailures (cb : CircuitBreaker) (source : String) (ts : List ℤ) :
    (cb.recordFailures source ts).failCount source = cb.failCount source + ts.length := by
  induction ts generalizing cb with
  | nil => simp [CircuitBreaker.recordFailures]
  | cons t ts ih =>
    have h := ih (cb.record_failure source t)
    simp only [CircuitBreaker.recordFailures, List.foldl_cons] at h ⊢
    rw [h, failCount_record_failure]
    simp only [List.length_cons]
    omega

theorem lastFailure_recordFailures (cb : CircuitBreaker) (source : String) (t : ℤ) (ts : List ℤ) :
    (cb.recordFailures source (t :: ts)).lastFailure source = (t :: ts).getLast (by simp) := by
  induction ts generalizing cb t with
  | nil =>
    simp [CircuitBreaker.recordFailures, lastFailure_record_failure]
  | cons t2 ts ih =>
    have h := ih (cb.record_failure source t) t2
    simp only [CircuitBreaker.recordFailures, List.foldl_cons] at h ⊢
    rw [h]
    simp [List.getLast]

theorem threshold_recordFailures (cb : CircuitBreaker) (source : String) (ts : List ℤ) :
    (cb.recordFailures source ts).failure_threshold = cb.failure_threshold := by
  induction ts generalizing cb with
  | nil => simp [CircuitBreaker.recordFailures]
  | cons t ts ih =>
    have h := ih (cb.record_failure source t)
    simp only [CircuitBreaker.recordFailures, List.foldl_cons] at h ⊢
    rw [h, threshold_record_failure]

theorem timeout_recordFailures (cb : CircuitBreaker) (source : String) (ts : List ℤ) :
    (cb.recordFailures source ts).timeout = cb.timeout := by
  induction ts generalizing cb with
  | nil => simp [CircuitBreaker.recordFailures]
  | cons t ts ih =>
    have h := ih (cb.record_failure source t)
    simp only [CircuitBreaker.recordFailures, List.foldl_cons] at h ⊢
    rw [h, timeout_record_failure]

/-- The boolean returned by `is_open` is characterized by the
failure-count/elapsed-time condition, provided the threshold is
positive (it is 5 by default; with threshold 0 an untouched source
would make the right-hand side true while the code returns `False`). -/
theorem is_open_iff (cb : CircuitBreaker) (source : String) (now : ℤ)
    (hthr : 1 ≤ cb.failure_threshold) :
    (cb.is_open source now).1 = true ↔
      cb.failure_threshold ≤ cb.failCount source ∧
        now - cb.lastFailure source < cb.timeout := by
  unfold CircuitBreaker.is_open CircuitBreaker.failCount CircuitBreaker.lastFailure
  cases h : cb.failures source with
  | none =>
    simp only [Option.getD_none]
    constructor
    · intro hfalse
      exact absurd hfalse (by simp)
    · rintro ⟨h1, _⟩
      omega
  | some n =>
    simp only [Option.getD_some]
    by_cases h1 : n ≥ cb.failure_threshold
    · by_cases h2 : now - (cb.last_failure_time source).getD 0 < cb.timeout
      · simp [h1, h2]
      · simp [h1, h2]
    · simp [h1, show ¬ cb.failure_threshold ≤ n from fun hc => h1 hc]

theorem is_open_snd_of_true (cb : CircuitBreaker) (source : String) (now : ℤ)
    (h : (cb.is_open source now).1 = true) :
    (cb.is_open source now).2 = cb := by
  unfold CircuitBreaker.is_open at h ⊢
  cases hf : cb.failures source with
  | none => rfl
  | some n =>
    simp only [hf] at h ⊢
    by_cases h1 : n ≥ cb.failure_threshold
    · by_cases h2 : now - (cb.last_failure_time source).getD 0 < cb.timeout
      · simp [h1, h2]
      · simp [h1, h2] at h
    · simp [h1] at h

theorem record_success_failCount (cb : CircuitBreaker) (source : String) :
    (cb.record_success source).failCount source = 0 := by
  simp [CircuitBreaker.record_success, CircuitBreaker.failCount]

theorem record_success_threshold (cb : CircuitBreaker) (source : String) :
    (cb.record_success source).failure_threshold = cb.failure_threshold := by
  simp [CircuitBreaker.record_success]

/-- C1: for every source, `is_open` returns true exactly when the recorded
failure count is at least the threshold and the elapsed time since the last
recorded failure is below the timeout (stated for any positive threshold,
covering the default 5); after `threshold` consecutive `record_failure`
calls `is_open` is true immediately and stays true until timeout elapses;
and a single `record_success` at any point resets the failure count to 0,
making `is_open` false. -/
theorem C1_circuit_breaker_state_machine :
    (∀ (cb : CircuitBreaker) (source : String) (now : ℤ),
        1 ≤ cb.failure_threshold →
        ((cb.is_open source now).1 = true ↔
          cb.failure_threshold ≤ cb.failCount source ∧
            now - cb.lastFailure source < cb.timeout)) ∧
    (∀ (cb : CircuitBreaker) (source : String) (ts : List ℤ) (hne : ts ≠ [])
        (now : ℤ),
        ts.length = cb.failure_threshold →
        1 ≤ cb.failure_threshold →
        now - ts.getLast hne < cb.timeout →
        ((cb.recordFailures source ts).is_open source now).1 = true) ∧
    (∀ (cb : CircuitBreaker) (source : String) (now : ℤ),
        1 ≤ cb.failure_threshold →
        (cb.record_success source).failCount source = 0 ∧
          ((cb.record_success source).is_open source now).1 = false) := by
  refine ⟨fun cb source now hthr => is_open_iff cb source now hthr, ?_, ?_⟩
  · intro cb source ts hne now hlen hthr helapsed
    obtain ⟨t, ts', rfl⟩ := List.exists_cons_of_ne_nil hne
    set cb' := cb.recordFailures source (t :: ts') with hcb'
    have hth : cb'.failure_threshold = cb.failure_threshold :=
      threshold_recordFailures cb source (t :: ts')
    have hto : cb'.timeout = cb.timeout := timeout_recordFailures cb source (t :: ts')
    have hcount : cb'.failCount source = cb.failCount source + (t :: ts').length :=
      failCount_recordFailures cb source (t :: ts')
    have hlast : cb'.lastFailure source = (t :: ts').getLast (by simp) :=
      lastFailure_recordFailures cb source t ts'
    refine (is_open_iff cb' source now (by omega)).mpr ⟨by omega, ?_⟩
    rw [hlast, hto]
    exact helapsed
  · intro cb source now hthr
    refine ⟨record_success_failCount cb source, ?_⟩
    by_contra hne
    have htrue : ((cb.record_success source).is_open source now).1 = true := by
      cases h : ((cb.record_success source).is_open source now).1 with
      | false => exact absurd h hne
      | true => rfl
    have h2 := (is_open_iff (cb.record_success source) source now
      (by rw [record_success_threshold]; exact hthr)).mp htrue
    rw [record_success_failCount, record_success_threshold] at h2
    omega

/-- Witness for C1 at concrete inputs: the default breaker, five failures
at time 0, checks at times 10 and 100. -/
theorem C1_circuit_breaker_state_machine_witness :
    (((CircuitBreaker.default.is_open "nasa" 0).1 = true ↔
        CircuitBreaker.default.failure_threshold ≤ CircuitBreaker.default.failCount "nasa" ∧
          (0 : ℤ) - CircuitBreaker.default.lastFailure "nasa" < CircuitBreaker.default.timeout) ∧
      ((CircuitBreaker.default.recordFailures "nasa" [0, 0, 0, 0, 0]).is_open "nasa" 10).1
        = true) ∧
    ((CircuitBreaker.default.record_success "nasa").failCount "nasa" = 0 ∧
      ((CircuitBreaker.default.record_success "nasa").is_open "nasa" 10).1 = false) :=
  ⟨⟨C1_circuit_breaker_state_machine.1 CircuitBreaker.default "nasa" 0 (by decide),
    C1_circuit_breaker_state_machine.2.1 CircuitBreaker.default "nasa" [0, 0, 0, 0, 0]
      (by decide) 10 (by decide) (by decide) (by decide)⟩,
   C1_circuit_breaker_state_machine.2.2 CircuitBreaker.default "nasa" 10 (by decide)⟩

/-- C2 counterexample: with the default breaker, after 5 failures at time 0
and an `is_open` check at time 100 (timeout elapsed) which resets the count,
one further `record_failure` does NOT re-open the circuit: `is_open` still
returns false, refuting the claim that a single further failure re-opens
it. -/
theorem C2_counterexample :
    5 ≤ (CircuitBreaker.default.recordFailures "nasa" [0, 0, 0, 0, 0]).failCount "nasa" ∧
    ((CircuitBreaker.default.recordFailures "nasa" [0, 0, 0, 0, 0]).is_open "nasa" 100).1
      = false ∧
    ((((CircuitBreaker.default.recordFailures "nasa" [0, 0, 0, 0, 0]).is_open
          "nasa" 100).2.record_failure "nasa" 100).is_open "nasa" 100).1 = false := by
  decide

/-- C2 (amended): for every source whose failure count is at least the
(positive) threshold, an `is_open` check performed after the timeout has
elapsed since the last failure resets the failure count to 0 as a side
effect and returns false; but the very next single `record_failure` does
NOT re-open the circuit (for any threshold ≥ 2, in particular the default
5): `is_open` remains false until `threshold` further failures accrue. -/
theorem C2_time_reset_quirk (cb : CircuitBreaker) (source : String) (now : ℤ)
    (hcount : cb.failure_threshold ≤ cb.failCount source)
    (hthr : 1 ≤ cb.failure_threshold)
    (helapsed : cb.timeout ≤ now - cb.lastFailure source) :
    (cb.is_open source now).1 = false ∧
    (cb.is_open source now).2.failCount source = 0 ∧
    (2 ≤ cb.failure_threshold →
      ∀ t now2 : ℤ,
        (((cb.is_open source now).2.record_failure source t).is_open source now2).1
          = false) := by
  obtain ⟨n, hn⟩ : ∃ n, cb.failures source = some n := by
    cases h : cb.failures source with
    | none =>
      exfalso
      simp [CircuitBreaker.failCount, h] at hcount
      omega
    | some n => exact ⟨n, rfl⟩
  have hcn : cb.failure_threshold ≤ n := by
    simpa [CircuitBreaker.failCount, hn] using hcount
  have hnl : ¬ (now - (cb.last_failure_time source).getD 0 < cb.timeout) := by
    simp only [CircuitBreaker.lastFailure] at helapsed
    linarith
  have hopen : cb.is_open source now
      = (false, { cb with failures := fun s => if s = source then some 0 else cb.failures s }) := by
    unfold CircuitBreaker.is_open
    rw [hn]
    simp [show n ≥ cb.failure_threshold from hcn, hnl]
  refine ⟨by rw [hopen], by rw [hopen]; simp [CircuitBreaker.failCount], ?_⟩
  intro hthr2 t now2
  set cb' : CircuitBreaker :=
    { cb with failures := fun s => if s = source then some 0 else cb.failures s } with hcb'
  rw [hopen]
  have hc1 : (cb'.record_failure source t).failCount source = 1 := by
    rw [failCount_record_failure]
    simp [hcb', CircuitBreaker.failCount]
  have hth : (cb'.record_failure source t).failure_threshold = cb.failure_threshold := by
    rw [threshold_record_failure]
  by_contra hne2
  have htrue : ((cb'.record_failure source t).is_open source now2).1 = true := by
    cases h : ((cb'.record_failure source t).is_open source now2).1 with
    | false => exact absurd h hne2
    | true => rfl
  have h2 := (is_open_iff (cb'.record_failure source t) source now2 (by omega)).mp htrue
  rw [hc1, hth] at h2
  omega

/-- Witness for the amended C2 at concrete inputs. -/
theorem C2_time_reset_quirk_witness :
    ((CircuitBreaker.default.recordFailures "nasa" [0, 0, 0, 0, 0]).is_open "nasa" 100).1
        = false ∧
    ((CircuitBreaker.default.recordFailures "nasa" [0, 0, 0, 0, 0]).is_open
        "nasa" 100).2.failCount "nasa" = 0 ∧
    ((((CircuitBreaker.default.recordFailures "nasa" [0, 0, 0, 0, 0]).is_open
          "nasa" 100).2.record_failure "nasa" 100).is_open "nasa" 100).1 = false :=
  have h := C2_time_reset_quirk
    (CircuitBreaker.default.recordFailures "nasa" [0, 0, 0, 0, 0]) "nasa" 100
    (by decide) (by decide) (by decide)
  ⟨h.1, h.2.1, h.2.2 (by decide) 100 100⟩

/-! ## Query normalization (`database_client.py`, `_normalize_query`)

`" ".join(query.lower().split())`.  `str.lower()` is modelled by
`pyLower`, driven by the complete code-point table of CPython's
lowercase mapping (`lowerTable`); `str.split()` with no argument splits
on runs of whitespace and discards empty pieces, modelled by `words`
over the complete set of code points Python treats as whitespace
(`wsCodes`). -/

/-- The complete set of code points Python's `str.split()` (and
`str.isspace()`) treats as whitespace: `\t \n \x0b \x0c \r
\x1c \x1d \x1e \x1f` space `\x85 \xa0` and the Unicode space
separators U+1680, U+2000..U+200A, U+2028, U+2029, U+202F, U+205F,
U+3000. -/
def wsCodes : List Nat :=
  [9, 10, 11, 12, 13, 28, 29, 30, 31, 32, 133, 160, 5760, 8192, 8193, 8194, 8195,
   8196, 8197, 8198, 8199, 8200, 8201, 8202, 8232, 8233, 8239, 8287, 12288]

/-- Whether a code point is Python whitespace. -/
def isPySpaceNat (n : Nat) : Bool := wsCodes.contains n

/-- Whether a character is Python whitespace. -/
def isPySpace (c : Char) : Bool := isPySpaceNat c.toNat

def lowerTable0 : List (Nat × List Nat) := [
  (65, [97]), (66, [98]), (67, [99]), (68, [100]), (69, [101]), (70, [102]), (71, [103]),
  (72, [104]), (73, [105]), (74, [106]), (75, [107]), (76, [108]), (77, [109]), (78, [110]),
  (79, [111]), (80, [112]), (81, [113]), (82, [114]), (83, [115]), (84, [116]), (85, [117]),
  (86, [118]), (87, [119]), (88, [120]), (89, [121]), (90, [122]), (192, [224]), (193, [225]),
  (194, [226]), (195, [227]), (196, [228]), (197, [229]), (198, [230]), (199, [231]),
  (200, [232]), (201, [233]), (202, [234]), (203, [235]), (204, [236]), (205, [237]),
  (206, [238]), (207, [239]), (208, [240]), (209, [241]), (210, [242]), (211, [243]),
  (212, [244]), (213, [245]), (214, [246]), (216, [248]), (217, [249]), (218, [250]),
  (219, [251]), (220, [252]), (221, [253]), (222, [254]), (256, [257]), (258, [259]),
  (260, [261]), (262, [263]), (264, [265]), (266, [267]), (268, [269]), (270, [271]),
  (272, [273]), (274, [275]), (276, [277]), (278, [279]), (280, [281]), (282, [283]),
  (284, [285]), (286, [287]), (288, [289]), (290, [291]), (292, [293]), (294, [295]),
  (296, [297]), (298, [299]), (300, [301]), (302, [303]), (304, [105, 775]), (306, [307]),
  (308, [309]), (310, [311]), (313, [314]), (315, [316]), (317, [318]), (319, [320]),
  (321, [322]), (323, [324]), (325, [326]), (327, [328]), (330, [331]), (332, [333]),
  (334, [335]), (336, [337]), (338, [339]), (340, [341]), (342, [343]), (344, [345]),
  (346, [347]), (348, [349]), (350, [351]), (352, [353]), (354, [355]), (356, [357]),
  (358, [359]), (360, [361]), (362, [363]), (364, [365]), (366, [367]), (368, [369]),
  (370, [371]), (372, [373]), (374, [375]), (376, [255]), (377, [378]), (379, [380]),
  (381, [382]), (385, [595]), (386, [387]), (388, [389]), (390, [596]), (391, [392]),
  (393, [598]), (394, [599]), (395, [396]), (398, [477]), (399, [601]), (400, [603])]

def lowerTable1 : List (Nat × List Nat) := [
  (401, [402]), (403, [608]), (404, [611]), (406, [617]), (407, [616]), (408, [409]),
  (412, [623]), (413, [626]), (415, [629]), (416, [417]), (418, [419]), (420, [421]),
  (422, [640]), (423, [424]), (425, [643]), (428, [429]), (430, [648]), (431, [432]),
  (433, [650]), (434, [651]), (435, [436]), (437, [438]), (439, [658]), (440, [441]),
  (444, [445]), (452, [454]), (453, [454]), (455, [457]), (456, [457]), (458, [460]),
  (459, [460]), (461, [462]), (463, [464]), (465, [466]), (467, [468]), (469, [470]),
  (471, [472]), (473, [474]), (475, [476]), (478, [479]), (480, [481]), (482, [483]),
  (484, [485]), (486, [487]), (488, [489]), (490, [491]), (492, [493]), (494, [495]),
  (497, [499]), (498, [499]), (500, [501]), (502, [405]), (503, [447]), (504, [505]),
  (506, [507]), (508, [509]), (510, [511]), (512, [513]), (514, [515]), (516, [517]),
  (518, [519]), (520, [521]), (522, [523]), (524, [525]), (526, [527]), (528, [529]),
  (530, [531]), (532, [533]), (534, [535]), (536, [537]), (538, [539]), (540, [541]),
  (542, [543]), (544, [414]), (546, [547]), (548, [549]), (550, [551]), (552, [553]),
  (554, [555]), (556, [557]), (558, [559]), (560, [561]), (562, [563]), (570, [11365]),
  (571, [572]), (573, [410]), (574, [11366]), (577, [578]), (579, [384]), (580, [649]),
  (581, [652]), (582, [583]), (584, [585]), (586, [587]), (588, [589]), (590, [591]),
  (880, [881]), (882, [883]), (886, [887]), (895, [1011]), (902, [940]), (904, [941]),
  (905, [942]), (906, [943]), (908, [972]), (910, [973]), (911, [974]), (913, [945]),
  (914, [946]), (915, [947]), (916, [948]), (917, [949]), (918, [950]), (919, [951]),
  (920, [952]), (921, [953]), (922, [954]), (923, [955]), (924, [956]), (925, [957]),
  (926, [958]), (927, [959]), (928, [960]), (929, [961]), (931, [963]), (932, [964]),
  (933, [965]), (934, [966]), (935, [967]), (936, [968])]

def lowerTable2 : List (Nat × List Nat) := [
  (937, [969]), (938, [970]), (939, [971]), (975, [983]), (984, [985]), (986, [987]),
  (988, [989]), (990, [991]), (992, [993]), (994, [995]), (996, [997]), (998, [999]),
  (1000, [1001]), (1002, [1003]), (1004, [1005]), (1006, [1007]), (1012, [952]), (1015, [1016]),
  (1017, [1010]), (1018, [1019]), (1021, [891]), (1022, [892]), (1023, [893]), (1024, [1104]),
  (1025, [1105]), (1026, [1106]), (1027, [1107]), (1028, [1108]), (1029, [1109]), (1030, [1110]),
  (1031, [1111]), (1032, [1112]), (1033, [1113]), (1034, [1114]), (1035, [1115]), (1036, [1116]),
  (1037, [1117]), (1038, [1118]), (1039, [1119]), (1040, [1072]), (1041, [1073]), (1042, [1074]),
  (1043, [1075]), (1044, [1076]), (1045, [1077]), (1046, [1078]), (1047, [1079]), (1048, [1080]),
  (1049, [1081]), (1050, [1082]), (1051, [1083]), (1052, [1084]), (1053, [1085]), (1054, [1086]),
  (1055, [1087]), (1056, [1088]), (1057, [1089]), (1058, [1090]), (1059, [1091]), (1060, [1092]),
  (1061, [1093]), (1062, [1094]), (1063, [1095]), (1064, [1096]), (1065, [1097]), (1066, [1098]),
  (1067, [1099]), (1068, [1100]), (1069, [1101]), (1070, [1102]), (1071, [1103]), (1120, [1121]),
  (1122, [1123]), (1124, [1125]), (1126, [1127]), (1128, [1129]), (1130, [1131]), (1132, [1133]),
  (1134, [1135]), (1136, [1137]), (1138, [1139]), (1140, [1141]), (1142, [1143]), (1144, [1145]),
  (1146, [1147]), (1148, [1149]), (1150, [1151]), (1152, [1153]), (1162, [1163]), (1164, [1165]),
  (1166, [1167]), (1168, [1169]), (1170, [1171]), (1172, [1173]), (1174, [1175]), (1176, [1177]),
  (1178, [1179]), (1180, [1181]), (1182, [1183]), (1184, [1185]), (1186, [1187]), (1188, [1189]),
  (1190, [1191]), (1192, [1193]), (1194, [1195]), (1196, [1197]), (1198, [1199]), (1200, [1201]),
  (1202, [1203]), (1204, [1205]), (1206, [1207]), (1208, [1209]), (1210, [1211]), (1212, [1213]),
  (1214, [1215]), (1216, [1231]), (1217, [1218]), (1219, [1220]), (1221, [1222]), (1223, [1224]),
  (1225, [1226]), (1227, [1228]), (1229, [1230]), (1232, [1233]), (1234, [1235]), (1236, [1237]),
  (1238, [1239]), (1240, [1241]), (1242, [1243]), (1244, [1245])]

def lowerTable3 : List (Nat × List Nat) := [
  (1246, [1247]), (1248, [1249]), (1250, [1251]), (1252, [1253]), (1254, [1255]), (1256, [1257]),
  (1258, [1259]), (1260, [1261]), (1262, [1263]), (1264, [1265]), (1266, [1267]), (1268, [1269]),
  (1270, [1271]), (1272, [1273]), (1274, [1275]), (1276, [1277]), (1278, [1279]), (1280, [1281]),
  (1282, [1283]), (1284, [1285]), (1286, [1287]), (1288, [1289]), (1290, [1291]), (1292, [1293]),
  (1294, [1295]), (1296, [1297]), (1298, [1299]), (1300, [1301]), (1302, [1303]), (1304, [1305]),
  (1306, [1307]), (1308, [1309]), (1310, [1311]), (1312, [1313]), (1314, [1315]), (1316, [1317]),
  (1318, [1319]), (1320, [1321]), (1322, [1323]), (1324, [1325]), (1326, [1327]), (1329, [1377]),
  (1330, [1378]), (1331, [1379]), (1332, [1380]), (1333, [1381]), (1334, [1382]), (1335, [1383]),
  (1336, [1384]), (1337, [1385]), (1338, [1386]), (1339, [1387]), (1340, [1388]), (1341, [1389]),
  (1342, [1390]), (1343, [1391]), (1344, [1392]), (1345, [1393]), (1346, [1394]), (1347, [1395]),
  (1348, [1396]), (1349, [1397]), (1350, [1398]), (1351, [1399]), (1352, [1400]), (1353, [1401]),
  (1354, [1402]), (1355, [1403]), (1356, [1404]), (1357, [1405]), (1358, [1406]), (1359, [1407]),
  (1360, [1408]), (1361, [1409]), (1362, [1410]), (1363, [1411]), (1364, [1412]), (1365, [1413]),
  (1366, [1414]), (4256, [11520]), (4257, [11521]), (4258, [11522]), (4259, [11523]),
  (4260, [11524]), (4261, [11525]), (4262, [11526]), (4263, [11527]), (4264, [11528]),
  (4265, [11529]), (4266, [11530]), (4267, [11531]), (4268, [11532]), (4269, [11533]),
  (4270, [11534]), (4271, [11535]), (4272, [11536]), (4273, [11537]), (4274, [11538]),
  (4275, [11539]), (4276, [11540]), (4277, [11541]), (4278, [11542]), (4279, [11543]),
  (4280, [11544]), (4281, [11545]), (4282, [11546]), (4283, [11547]), (4284, [11548]),
  (4285, [11549]), (4286, [11550]), (4287, [11551]), (4288, [11552]), (4289, [11553]),
  (4290, [11554]), (4291, [11555]), (4292, [11556]), (4293, [11557]), (4295, [11559]),
  (4301, [11565]), (5024, [43888]), (5025, [43889]), (5026, [43890]), (5027, [43891]),
  (5028, [43892]), (5029, [43893]), (5030, [43894]), (5031, [43895]), (5032, [43896]),
  (5033, [43897]), (5034, [43898])]

def lowerTable4 : List (Nat × List Nat) := [
  (5035, [43899]), (5036, [43900]), (5037, [43901]), (5038, [43902]), (5039, [43903]),
  (5040, [43904]), (5041, [43905]), (5042, [43906]), (5043, [43907]), (5044, [43908]),
  (5045, [43909]), (5046, [43910]), (5047, [43911]), (5048, [43912]), (5049, [43913]),
  (5050, [43914]), (5051, [43915]), (5052, [43916]), (5053, [43917]), (5054, [43918]),
  (5055, [43919]), (5056, [43920]), (5057, [43921]), (5058, [43922]), (5059, [43923]),
  (5060, [43924]), (5061, [43925]), (5062, [43926]), (5063, [43927]), (5064, [43928]),
  (5065, [43929]), (5066, [43930]), (5067, [43931]), (5068, [43932]), (5069, [43933]),
  (5070, [43934]), (5071, [43935]), (5072, [43936]), (5073, [43937]), (5074, [43938]),
  (5075, [43939]), (5076, [43940]), (5077, [43941]), (5078, [43942]), (5079, [43943]),
  (5080, [43944]), (5081, [43945]), (5082, [43946]), (5083, [43947]), (5084, [43948]),
  (5085, [43949]), (5086, [43950]), (5087, [43951]), (5088, [43952]), (5089, [43953]),
  (5090, [43954]), (5091, [43955]), (5092, [43956]), (5093, [43957]), (5094, [43958]),
  (5095, [43959]), (5096, [43960]), (5097, [43961]), (5098, [43962]), (5099, [43963]),
  (5100, [43964]), (5101, [43965]), (5102, [43966]), (5103, [43967]), (5104, [5112]),
  (5105, [5113]), (5106, [5114]), (5107, [5115]), (5108, [5116]), (5109, [5117]), (7312, [4304]),
  (7313, [4305]), (7314, [4306]), (7315, [4307]), (7316, [4308]), (7317, [4309]), (7318, [4310]),
  (7319, [4311]), (7320, [4312]), (7321, [4313]), (7322, [4314]), (7323, [4315]), (7324, [4316]),
  (7325, [4317]), (7326, [4318]), (7327, [4319]), (7328, [4320]), (7329, [4321]), (7330, [4322]),
  (7331, [4323]), (7332, [4324]), (7333, [4325]), (7334, [4326]), (7335, [4327]), (7336, [4328]),
  (7337, [4329]), (7338, [4330]), (7339, [4331]), (7340, [4332]), (7341, [4333]), (7342, [4334]),
  (7343, [4335]), (7344, [4336]), (7345, [4337]), (7346, [4338]), (7347, [4339]), (7348, [4340]),
  (7349, [4341]), (7350, [4342]), (7351, [4343]), (7352, [4344]), (7353, [4345]), (7354, [4346]),
  (7357, [4349]), (7358, [4350]), (7359, [4351]), (7680, [7681]), (7682, [7683]), (7684, [7685]),
  (7686, [7687]), (7688, [7689]), (7690, [7691]), (7692, [7693]), (7694, [7695]), (7696, [7697])]

def lowerTable5 : List (Nat × List Nat) := [
  (7698, [7699]), (7700, [7701]), (7702, [7703]), (7704, [7705]), (7706, [7707]), (7708, [7709]),
  (7710, [7711]), (7712, [7713]), (7714, [7715]), (7716, [7717]), (7718, [7719]), (7720, [7721]),
  (7722, [7723]), (7724, [7725]), (7726, [7727]), (7728, [7729]), (7730, [7731]), (7732, [7733]),
  (7734, [7735]), (7736, [7737]), (7738, [7739]), (7740, [7741]), (7742, [7743]), (7744, [7745]),
  (7746, [7747]), (7748, [7749]), (7750, [7751]), (7752, [7753]), (7754, [7755]), (7756, [7757]),
  (7758, [7759]), (7760, [7761]), (7762, [7763]), (7764, [7765]), (7766, [7767]), (7768, [7769]),
  (7770, [7771]), (7772, [7773]), (7774, [7775]), (7776, [7777]), (7778, [7779]), (7780, [7781]),
  (7782, [7783]), (7784, [7785]), (7786, [7787]), (7788, [7789]), (7790, [7791]), (7792, [7793]),
  (7794, [7795]), (7796, [7797]), (7798, [7799]), (7800, [7801]), (7802, [7803]), (7804, [7805]),
  (7806, [7807]), (7808, [7809]), (7810, [7811]), (7812, [7813]), (7814, [7815]), (7816, [7817]),
  (7818, [7819]), (7820, [7821]), (7822, [7823]), (7824, [7825]), (7826, [7827]), (7828, [7829]),
  (7838, [223]), (7840, [7841]), (7842, [7843]), (7844, [7845]), (7846, [7847]), (7848, [7849]),
  (7850, [7851]), (7852, [7853]), (7854, [7855]), (7856, [7857]), (7858, [7859]), (7860, [7861]),
  (7862, [7863]), (7864, [7865]), (7866, [7867]), (7868, [7869]), (7870, [7871]), (7872, [7873]),
  (7874, [7875]), (7876, [7877]), (7878, [7879]), (7880, [7881]), (7882, [7883]), (7884, [7885]),
  (7886, [7887]), (7888, [7889]), (7890, [7891]), (7892, [7893]), (7894, [7895]), (7896, [7897]),
  (7898, [7899]), (7900, [7901]), (7902, [7903]), (7904, [7905]), (7906, [7907]), (7908, [7909]),
  (7910, [7911]), (7912, [7913]), (7914, [7915]), (7916, [7917]), (7918, [7919]), (7920, [7921]),
  (7922, [7923]), (7924, [7925]), (7926, [7927]), (7928, [7929]), (7930, [7931]), (7932, [7933]),
  (7934, [7935]), (7944, [7936]), (7945, [7937]), (7946, [7938]), (7947, [7939]), (7948, [7940]),
  (7949, [7941]), (7950, [7942]), (7951, [7943]), (7960, [7952]), (7961, [7953]), (7962, [7954]),
  (7963, [7955]), (7964, [7956]), (7965, [7957]), (7976, [7968])]

def lowerTable6 : List (Nat × List Nat) := [
  (7977, [7969]), (7978, [7970]), (7979, [7971]), (7980, [7972]), (7981, [7973]), (7982, [7974]),
  (7983, [7975]), (7992, [7984]), (7993, [7985]), (7994, [7986]), (7995, [7987]), (7996, [7988]),
  (7997, [7989]), (7998, [7990]), (7999, [7991]), (8008, [8000]), (8009, [8001]), (8010, [8002]),
  (8011, [8003]), (8012, [8004]), (8013, [8005]), (8025, [8017]), (8027, [8019]), (8029, [8021]),
  (8031, [8023]), (8040, [8032]), (8041, [8033]), (8042, [8034]), (8043, [8035]), (8044, [8036]),
  (8045, [8037]), (8046, [8038]), (8047, [8039]), (8072, [8064]), (8073, [8065]), (8074, [8066]),
  (8075, [8067]), (8076, [8068]), (8077, [8069]), (8078, [8070]), (8079, [8071]), (8088, [8080]),
  (8089, [8081]), (8090, [8082]), (8091, [8083]), (8092, [8084]), (8093, [8085]), (8094, [8086]),
  (8095, [8087]), (8104, [8096]), (8105, [8097]), (8106, [8098]), (8107, [8099]), (8108, [8100]),
  (8109, [8101]), (8110, [8102]), (8111, [8103]), (8120, [8112]), (8121, [8113]), (8122, [8048]),
  (8123, [8049]), (8124, [8115]), (8136, [8050]), (8137, [8051]), (8138, [8052]), (8139, [8053]),
  (8140, [8131]), (8152, [8144]), (8153, [8145]), (8154, [8054]), (8155, [8055]), (8168, [8160]),
  (8169, [8161]), (8170, [8058]), (8171, [8059]), (8172, [8165]), (8184, [8056]), (8185, [8057]),
  (8186, [8060]), (8187, [8061]), (8188, [8179]), (8486, [969]), (8490, [107]), (8491, [229]),
  (8498, [8526]), (8544, [8560]), (8545, [8561]), (8546, [8562]), (8547, [8563]), (8548, [8564]),
  (8549, [8565]), (8550, [8566]), (8551, [8567]), (8552, [8568]), (8553, [8569]), (8554, [8570]),
  (8555, [8571]), (8556, [8572]), (8557, [8573]), (8558, [8574]), (8559, [8575]), (8579, [8580]),
  (9398, [9424]), (9399, [9425]), (9400, [9426]), (9401, [9427]), (9402, [9428]), (9403, [9429]),
  (9404, [9430]), (9405, [9431]), (9406, [9432]), (9407, [9433]), (9408, [9434]), (9409, [9435]),
  (9410, [9436]), (9411, [9437]), (9412, [9438]), (9413, [9439]), (9414, [9440]), (9415, [9441]),
  (9416, [9442]), (9417, [9443]), (9418, [9444]), (9419, [9445]), (9420, [9446]), (9421, [9447]),
  (9422, [9448]), (9423, [9449]), (11264, [11312]), (11265, [11313])]

def lowerTable7 : List (Nat × List Nat) := [
  (11266, [11314]), (11267, [11315]), (11268, [11316]), (11269, [11317]), (11270, [11318]),
  (11271, [11319]), (11272, [11320]), (11273, [11321]), (11274, [11322]), (11275, [11323]),
  (11276, [11324]), (11277, [11325]), (11278, [11326]), (11279, [11327]), (11280, [11328]),
  (11281, [11329]), (11282, [11330]), (11283, [11331]), (11284, [11332]), (11285, [11333]),
  (11286, [11334]), (11287, [11335]), (11288, [11336]), (11289, [11337]), (11290, [11338]),
  (11291, [11339]), (11292, [11340]), (11293, [11341]), (11294, [11342]), (11295, [11343]),
  (11296, [11344]), (11297, [11345]), (11298, [11346]), (11299, [11347]), (11300, [11348]),
  (11301, [11349]), (11302, [11350]), (11303, [11351]), (11304, [11352]), (11305, [11353]),
  (11306, [11354]), (11307, [11355]), (11308, [11356]), (11309, [11357]), (11310, [11358]),
  (11311, [11359]), (11360, [11361]), (11362, [619]), (11363, [7549]), (11364, [637]),
  (11367, [11368]), (11369, [11370]), (11371, [11372]), (11373, [593]), (11374, [625]),
  (11375, [592]), (11376, [594]), (11378, [11379]), (11381, [11382]), (11390, [575]),
  (11391, [576]), (11392, [11393]), (11394, [11395]), (11396, [11397]), (11398, [11399]),
  (11400, [11401]), (11402, [11403]), (11404, [11405]), (11406, [11407]), (11408, [11409]),
  (11410, [11411]), (11412, [11413]), (11414, [11415]), (11416, [11417]), (11418, [11419]),
  (11420, [11421]), (11422, [11423]), (11424, [11425]), (11426, [11427]), (11428, [11429]),
  (11430, [11431]), (11432, [11433]), (11434, [11435]), (11436, [11437]), (11438, [11439]),
  (11440, [11441]), (11442, [11443]), (11444, [11445]), (11446, [11447]), (11448, [11449]),
  (11450, [11451]), (11452, [11453]), (11454, [11455]), (11456, [11457]), (11458, [11459]),
  (11460, [11461]), (11462, [11463]), (11464, [11465]), (11466, [11467]), (11468, [11469]),
  (11470, [11471]), (11472, [11473]), (11474, [11475]), (11476, [11477]), (11478, [11479]),
  (11480, [11481]), (11482, [11483]), (11484, [11485]), (11486, [11487]), (11488, [11489]),
  (11490, [11491]), (11499, [11500]), (11501, [11502]), (11506, [11507]), (42560, [42561]),
  (42562, [42563]), (42564, [42565]), (42566, [42567]), (42568, [42569]), (42570, [42571]),
  (42572, [42573]), (42574, [42575]), (42576, [42577]), (42578, [42579]), (42580, [42581]),
  (42582, [42583]), (42584, [42585]), (42586, [42587]), (42588, [42589]), (42590, [42591])]

def lowerTable8 : List (Nat × List Nat) := [
  (42592, [42593]), (42594, [42595]), (42596, [42597]), (42598, [42599]), (42600, [42601]),
  (42602, [42603]), (42604, [42605]), (42624, [42625]), (42626, [42627]), (42628, [42629]),
  (42630, [42631]), (42632, [42633]), (42634, [42635]), (42636, [42637]), (42638, [42639]),
  (42640, [42641]), (42642, [42643]), (42644, [42645]), (42646, [42647]), (42648, [42649]),
  (42650, [42651]), (42786, [42787]), (42788, [42789]), (42790, [42791]), (42792, [42793]),
  (42794, [42795]), (42796, [42797]), (42798, [42799]), (42802, [42803]), (42804, [42805]),
  (42806, [42807]), (42808, [42809]), (42810, [42811]), (42812, [42813]), (42814, [42815]),
  (42816, [42817]), (42818, [42819]), (42820, [42821]), (42822, [42823]), (42824, [42825]),
  (42826, [42827]), (42828, [42829]), (42830, [42831]), (42832, [42833]), (42834, [42835]),
  (42836, [42837]), (42838, [42839]), (42840, [42841]), (42842, [42843]), (42844, [42845]),
  (42846, [42847]), (42848, [42849]), (42850, [42851]), (42852, [42853]), (42854, [42855]),
  (42856, [42857]), (42858, [42859]), (42860, [42861]), (42862, [42863]), (42873, [42874]),
  (42875, [42876]), (42877, [7545]), (42878, [42879]), (42880, [42881]), (42882, [42883]),
  (42884, [42885]), (42886, [42887]), (42891, [42892]), (42893, [613]), (42896, [42897]),
  (42898, [42899]), (42902, [42903]), (42904, [42905]), (42906, [42907]), (42908, [42909]),
  (42910, [42911]), (42912, [42913]), (42914, [42915]), (42916, [42917]), (42918, [42919]),
  (42920, [42921]), (42922, [614]), (42923, [604]), (42924, [609]), (42925, [620]),
  (42926, [618]), (42928, [670]), (42929, [647]), (42930, [669]), (42931, [43859]),
  (42932, [42933]), (42934, [42935]), (42936, [42937]), (42938, [42939]), (42940, [42941]),
  (42942, [42943]), (42944, [42945]), (42946, [42947]), (42948, [42900]), (42949, [642]),
  (42950, [7566]), (42951, [42952]), (42953, [42954]), (42960, [42961]), (42966, [42967]),
  (42968, [42969]), (42997, [42998]), (65313, [65345]), (65314, [65346]), (65315, [65347]),
  (65316, [65348]), (65317, [65349]), (65318, [65350]), (65319, [65351]), (65320, [65352]),
  (65321, [65353]), (65322, [65354]), (65323, [65355]), (65324, [65356]), (65325, [65357]),
  (65326, [65358]), (65327, [65359]), (65328, [65360]), (65329, [65361]), (65330, [65362]),
  (65331, [65363]), (65332, [65364]), (65333, [65365]), (65334, [65366]), (65335, [65367])]

def lowerTable9 : List (Nat × List Nat) := [
  (65336, [65368]), (65337, [65369]), (65338, [65370]), (66560, [66600]), (66561, [66601]),
  (66562, [66602]), (66563, [66603]), (66564, [66604]), (66565, [66605]), (66566, [66606]),
  (66567, [66607]), (66568, [66608]), (66569, [66609]), (66570, [66610]), (66571, [66611]),
  (66572, [66612]), (66573, [66613]), (66574, [66614]), (66575, [66615]), (66576, [66616]),
  (66577, [66617]), (66578, [66618]), (66579, [66619]), (66580, [66620]), (66581, [66621]),
  (66582, [66622]), (66583, [66623]), (66584, [66624]), (66585, [66625]), (66586, [66626]),
  (66587, [66627]), (66588, [66628]), (66589, [66629]), (66590, [66630]), (66591, [66631]),
  (66592, [66632]), (66593, [66633]), (66594, [66634]), (66595, [66635]), (66596, [66636]),
  (66597, [66637]), (66598, [66638]), (66599, [66639]), (66736, [66776]), (66737, [66777]),
  (66738, [66778]), (66739, [66779]), (66740, [66780]), (66741, [66781]), (66742, [66782]),
  (66743, [66783]), (66744, [66784]), (66745, [66785]), (66746, [66786]), (66747, [66787]),
  (66748, [66788]), (66749, [66789]), (66750, [66790]), (66751, [66791]), (66752, [66792]),
  (66753, [66793]), (66754, [66794]), (66755, [66795]), (66756, [66796]), (66757, [66797]),
  (66758, [66798]), (66759, [66799]), (66760, [66800]), (66761, [66801]), (66762, [66802]),
  (66763, [66803]), (66764, [66804]), (66765, [66805]), (66766, [66806]), (66767, [66807]),
  (66768, [66808]), (66769, [66809]), (66770, [66810]), (66771, [66811]), (66928, [66967]),
  (66929, [66968]), (66930, [66969]), (66931, [66970]), (66932, [66971]), (66933, [66972]),
  (66934, [66973]), (66935, [66974]), (66936, [66975]), (66937, [66976]), (66938, [66977]),
  (66940, [66979]), (66941, [66980]), (66942, [66981]), (66943, [66982]), (66944, [66983]),
  (66945, [66984]), (66946, [66985]), (66947, [66986]), (66948, [66987]), (66949, [66988]),
  (66950, [66989]), (66951, [66990]), (66952, [66991]), (66953, [66992]), (66954, [66993]),
  (66956, [66995]), (66957, [66996]), (66958, [66997]), (66959, [66998]), (66960, [66999]),
  (66961, [67000]), (66962, [67001]), (66964, [67003]), (66965, [67004]), (68736, [68800]),
  (68737, [68801]), (68738, [68802]), (68739, [68803]), (68740, [68804]), (68741, [68805]),
  (68742, [68806]), (68743, [68807]), (68744, [68808]), (68745, [68809]), (68746, [68810]),
  (68747, [68811]), (68748, [68812]), (68749, [68813]), (68750, [68814]), (68751, [68815])]

def lowerTable10 : List (Nat × List Nat) := [
  (68752, [68816]), (68753, [68817]), (68754, [68818]), (68755, [68819]), (68756, [68820]),
  (68757, [68821]), (68758, [68822]), (68759, [68823]), (68760, [68824]), (68761, [68825]),
  (68762, [68826]), (68763, [68827]), (68764, [68828]), (68765, [68829]), (68766, [68830]),
  (68767, [68831]), (68768, [68832]), (68769, [68833]), (68770, [68834]), (68771, [68835]),
  (68772, [68836]), (68773, [68837]), (68774, [68838]), (68775, [68839]), (68776, [68840]),
  (68777, [68841]), (68778, [68842]), (68779, [68843]), (68780, [68844]), (68781, [68845]),
  (68782, [68846]), (68783, [68847]), (68784, [68848]), (68785, [68849]), (68786, [68850]),
  (71840, [71872]), (71841, [71873]), (71842, [71874]), (71843, [71875]), (71844, [71876]),
  (71845, [71877]), (71846, [71878]), (71847, [71879]), (71848, [71880]), (71849, [71881]),
  (71850, [71882]), (71851, [71883]), (71852, [71884]), (71853, [71885]), (71854, [71886]),
  (71855, [71887]), (71856, [71888]), (71857, [71889]), (71858, [71890]), (71859, [71891]),
  (71860, [71892]), (71861, [71893]), (71862, [71894]), (71863, [71895]), (71864, [71896]),
  (71865, [71897]), (71866, [71898]), (71867, [71899]), (71868, [71900]), (71869, [71901]),
  (71870, [71902]), (71871, [71903]), (93760, [93792]), (93761, [93793]), (93762, [93794]),
  (93763, [93795]), (93764, [93796]), (93765, [93797]), (93766, [93798]), (93767, [93799]),
  (93768, [93800]), (93769, [93801]), (93770, [93802]), (93771, [93803]), (93772, [93804]),
  (93773, [93805]), (93774, [93806]), (93775, [93807]), (93776, [93808]), (93777, [93809]),
  (93778, [93810]), (93779, [93811]), (93780, [93812]), (93781, [93813]), (93782, [93814]),
  (93783, [93815]), (93784, [93816]), (93785, [93817]), (93786, [93818]), (93787, [93819]),
  (93788, [93820]), (93789, [93821]), (93790, [93822]), (93791, [93823]), (125184, [125218]),
  (125185, [125219]), (125186, [125220]), (125187, [125221]), (125188, [125222]),
  (125189, [125223]), (125190, [125224]), (125191, [125225]), (125192, [125226]),
  (125193, [125227]), (125194, [125228]), (125195, [125229]), (125196, [125230]),
  (125197, [125231]), (125198, [125232]), (125199, [125233]), (125200, [125234]),
  (125201, [125235]), (125202, [125236]), (125203, [125237]), (125204, [125238]),
  (125205, [125239]), (125206, [125240]), (125207, [125241]), (125208, [125242]),
  (125209, [125243]), (125210, [125244]), (125211, [125245]), (125212, [125246]),
  (125213, [125247]), (125214, [125248])]

def lowerTable11 : List (Nat × List Nat) := [
  (125215, [125249]), (125216, [125250]), (125217, [125251])]

/-- The complete code-point table of Python's `str.lower()` (CPython
3.11, Unicode 14.0): every code point whose lowercase mapping differs
from the code point itself, paired with that mapping (U+0130 maps to
the two code points U+0069 U+0307; every other mapping is a single
code point). -/
def lowerTable : List (Nat × List Nat) :=
  lowerTable0 ++ lowerTable1 ++ lowerTable2 ++ lowerTable3 ++ lowerTable4 ++ lowerTable5 ++ lowerTable6 ++ lowerTable7 ++ lowerTable8 ++ lowerTable9 ++ lowerTable10 ++ lowerTable11

/-- The key set of `lowerTable`. -/
def lowerKeys : List Nat := lowerTable.map Prod.fst

/-- All code points appearing in the lowercase expansions of
`lowerTable`. -/
def lowerValues : List Nat := (lowerTable.map Prod.snd).flatten

/-- The bitmask with bit `x` set for every `x` in the list. -/
def natMask (l : List Nat) : Nat := l.foldl (fun m x => m ||| 1 <<< x) 0

/-- `str.lower()` on a single character: its lowercase expansion from
the table, or the character itself when the table has no entry. -/
def pyLowerChar (c : Char) : List Char :=
  match lowerTable.lookup c.toNat with
  | some ds => ds.map Char.ofNat
  | none => [c]

/-- `str.lower()` on a character list (a code point can expand to more
than one character, so this is a concatenation of expansions). -/
def pyLower : List Char → List Char
  | [] => []
  | c :: cs => pyLowerChar c ++ pyLower cs

/-- Helper for `words`: `acc` is the current in-progress word, reversed. -/
def wordsAux (l : List Char) (acc : List Char) : List (List Char) :=
  match l with
  | [] => if acc = [] then [] else [acc.reverse]
  | c :: cs =>
    if isPySpace c then
      if acc = [] then wordsAux cs [] else acc.reverse :: wordsAux cs []
    else
      wordsAux cs (c :: acc)

/-- `str.split()` with no separator: maximal runs of non-whitespace
characters, with all whitespace discarded. -/
def words (l : List Char) : List (List Char) :=
  wordsAux l []

theorem words_nil : words [] = [] := rfl

theorem words_cons_space {c : Char} (cs : List Char) (h : isPySpace c = true) :
    words (c :: cs) = words cs := by
  simp [words, wordsAux, h]

theorem wordsAux_acc (cs : List Char) (acc : List Char) (hacc : acc ≠ []) :
    wordsAux cs acc =
      (acc.reverse ++ cs.takeWhile (fun x => !isPySpace x)) ::
        words (cs.dropWhile (fun x => !isPySpace x)) := by
  induction cs generalizing acc with
  | nil => simp [wordsAux, hacc, words]
  | cons c cs ih =>
    by_cases h : isPySpace c = true
    · have h1 : (!isPySpace c) = false := by simp [h]
      have hLHS : wordsAux (c :: cs) acc = acc.reverse :: wordsAux cs [] := by
        simp [wordsAux, h, hacc]
      have htake : List.takeWhile (fun x => !isPySpace x) (c :: cs) = [] := by
        simp [List.takeWhile_cons, h1]
      have hdrop : List.dropWhile (fun x => !isPySpace x) (c :: cs) = c :: cs := by
        simp [List.dropWhile_cons, h1]
      rw [hLHS, htake, hdrop, List.append_nil, words_cons_space cs h]
      rfl
    · have hf : isPySpace c = false := by simpa using h
      have h1 : (!isPySpace c) = true := by simp [hf]
      rw [List.takeWhile_cons, List.dropWhile_cons]
      simp only [h1, if_true]
      have h2 := ih (c :: acc) (by simp)
      simp only [wordsAux, hf, Bool.false_eq_true, if_false]
      rw [h2]
      simp

theorem words_cons_word {c : Char} (cs : List Char) (h : isPySpace c = false) :
    words (c :: cs) =
      (c :: cs.takeWhile (fun x => !isPySpace x)) ::
        words (cs.dropWhile (fun x => !isPySpace x)) := by
  have h1 : words (c :: cs) = wordsAux cs [c] := by
    simp [words, wordsAux, h]
  rw [h1, wordsAux_acc cs [c] (by simp)]
  simp

/-- `DatabaseClient._normalize_query` on character lists:
`" ".join(query.lower().split())`. -/
def normalizeChars (l : List Char) : List Char :=
  List.intercalate [' '] (words (pyLower l))

/-- `DatabaseClient._normalize_query(query)`:
`" ".join(query.lower().split())`. -/
def normalize_query (q : String) : String :=
  String.mk (normalizeChars q.data)

theorem lookup_mem {l : List (Nat × List Nat)} {n : Nat} {ds : List Nat}
    (h : l.lookup n = some ds) : (n, ds) ∈ l := by
  induction l with
  | nil => simp [List.lookup] at h
  | cons p t ih =>
    obtain ⟨k, v⟩ := p
    rw [List.lookup_cons] at h
    cases hk : n == k with
    | true =>
      rw [hk] at h
      simp only [Option.some.injEq] at h
      subst h
      have : n = k := eq_of_beq hk
      subst this
      exact List.mem_cons_self _ _
    | false =>
      rw [hk] at h
      exact List.mem_cons_of_mem _ (ih h)

theorem lookup_eq_none_of {l : List (Nat × List Nat)} {n : Nat}
    (h : ∀ p ∈ l, p.1 ≠ n) : l.lookup n = none := by
  induction l with
  | nil => rfl
  | cons p t ih =>
    obtain ⟨k, v⟩ := p
    rw [List.lookup_cons]
    have hne : (n == k) = false := by
      have hkn := h (k, v) (List.mem_cons_self _ _)
      simp only [ne_eq] at hkn
      rw [beq_eq_false_iff_ne]
      omega
    rw [hne]
    exact ih fun p hp => h p (List.mem_cons_of_mem _ hp)

theorem toNat_ofNat_valid {n : Nat} (h : Nat.isValidChar n) : (Char.ofNat n).toNat = n := by
  simp only [Char.ofNat]
  rw [dif_pos h]
  rfl

set_option maxRecDepth 8192 in
/-- Per-row facts of the lowercase table: no key is whitespace, every
expansion is nonempty, and every expansion code point is a valid scalar
value and not whitespace. -/
theorem lowerTable_rows_ok :
    (lowerTable.all fun p =>
      !isPySpaceNat p.1 &&
      !p.2.isEmpty &&
      (p.2.all fun d => decide (Nat.isValidChar d) && !isPySpaceNat d)) = true := by decide

set_option maxRecDepth 8192 in
/-- No expansion code point is itself a key of the table (so Python
lowercasing is idempotent). -/
theorem keys_values_disjoint : natMask lowerKeys &&& natMask lowerValues = 0 := by decide

theorem testBit_maskFold (l : List Nat) (m0 i : Nat) :
    (l.foldl (fun m x => m ||| 1 <<< x) m0).testBit i
      = (m0.testBit i || l.any (fun x => x == i)) := by
  induction l generalizing m0 with
  | nil => simp
  | cons x xs ih =>
    rw [List.foldl_cons, ih, List.any_cons]
    rw [Nat.testBit_lor, Nat.one_shiftLeft]
    by_cases hx : x = i
    · subst hx
      simp [Nat.testBit_two_pow_self]
    · have h2 : Nat.testBit (2 ^ x) i = false := Nat.testBit_two_pow_of_ne hx
      simp only [h2, Bool.or_false]
      have h3 : (x == i) = false := by
        rw [beq_eq_false_iff_ne]
        omega
      rw [h3]
      simp [Bool.or_comm, Bool.or_assoc, Bool.or_left_comm]

theorem testBit_natMask {l : List Nat} {i : Nat} (h : i ∈ l) :
    (natMask l).testBit i = true := by
  unfold natMask
  rw [testBit_maskFold]
  have : l.any (fun x => x == i) = true := by
    rw [List.any_eq_true]
    exact ⟨i, h, by simp⟩
  simp [this]

theorem value_not_key {d : Nat} (hd : d ∈ lowerValues) :
    ∀ p ∈ lowerTable, p.1 ≠ d := by
  intro p hp heq
  have hk : (natMask lowerKeys).testBit d = true := by
    apply testBit_natMask
    rw [← heq]
    exact List.mem_map_of_mem Prod.fst hp
  have hv : (natMask lowerValues).testBit d = true := testBit_natMask hd
  have h0 := congrArg (fun n => Nat.testBit n d) keys_values_disjoint
  simp [Nat.testBit_land, hk, hv] at h0

theorem lowerTable_row {n : Nat} {ds : List Nat} (hmem : (n, ds) ∈ lowerTable) :
    isPySpaceNat n = false ∧ ds ≠ [] ∧
      ∀ d ∈ ds, Nat.isValidChar d ∧ isPySpaceNat d = false := by
  have hall := lowerTable_rows_ok
  rw [List.all_eq_true] at hall
  have hp := hall (n, ds) hmem
  simp only [Bool.and_eq_true, Bool.not_eq_true', List.all_eq_true, decide_eq_true_eq,
    List.isEmpty_eq_false] at hp
  exact ⟨hp.1.1, hp.1.2, fun d hd => ⟨(hp.2 d hd).1, (hp.2 d hd).2⟩⟩

theorem pyLowerChar_space {c : Char} (h : isPySpace c = true) : pyLowerChar c = [c] := by
  unfold pyLowerChar
  cases hl : lowerTable.lookup c.toNat with
  | none => rfl
  | some ds =>
    exfalso
    have hrow := lowerTable_row (lookup_mem hl)
    unfold isPySpace at h
    rw [hrow.1] at h
    exact absurd h (by simp)

theorem pyLowerChar_ne_nil (c : Char) : pyLowerChar c ≠ [] := by
  unfold pyLowerChar
  cases hl : lowerTable.lookup c.toNat with
  | none => simp
  | some ds =>
    have hrow := lowerTable_row (lookup_mem hl)
    simp [hrow.2.1]

theorem pyLowerChar_nonspace {c : Char} (h : isPySpace c = false) :
    ∀ d ∈ pyLowerChar c, isPySpace d = false := by
  unfold pyLowerChar
  cases hl : lowerTable.lookup c.toNat with
  | none =>
    intro d hd
    simp only [List.mem_singleton] at hd
    subst hd
    exact h
  | some ds =>
    intro d hd
    obtain ⟨v, hv, rfl⟩ := List.mem_map.mp hd
    have hrow := lowerTable_row (lookup_mem hl)
    obtain ⟨hvalid, hws⟩ := hrow.2.2 v hv
    unfold isPySpace
    rw [toNat_ofNat_valid hvalid]
    exact hws

theorem pyLowerChar_image_fixed (c : Char) :
    ∀ d ∈ pyLowerChar c, pyLowerChar d = [d] := by
  intro d hd
  unfold pyLowerChar at hd
  cases hl : lowerTable.lookup c.toNat with
  | none =>
    rw [hl] at hd
    simp only [List.mem_singleton] at hd
    subst hd
    unfold pyLowerChar
    rw [hl]
  | some ds =>
    rw [hl] at hd
    obtain ⟨v, hv, rfl⟩ := List.mem_map.mp hd
    have hrow := lowerTable_row (lookup_mem hl)
    have hvalid := (hrow.2.2 v hv).1
    have hvin : v ∈ lowerValues := by
      unfold lowerValues
      rw [List.mem_flatten]
      exact ⟨ds, List.mem_map_of_mem Prod.snd (lookup_mem hl), hv⟩
    unfold pyLowerChar
    rw [toNat_ofNat_valid hvalid, lookup_eq_none_of (value_not_key hvin)]

theorem pyLower_append (a b : List Char) :
    pyLower (a ++ b) = pyLower a ++ pyLower b := by
  induction a with
  | nil => rfl
  | cons c cs ih =>
    rw [List.cons_append]
    show pyLowerChar c ++ pyLower (cs ++ b) = (pyLowerChar c ++ pyLower cs) ++ pyLower b
    rw [ih, List.append_assoc]

theorem mem_pyLower {l : List Char} {d : Char} (h : d ∈ pyLower l) :
    ∃ c ∈ l, d ∈ pyLowerChar c := by
  induction l with
  | nil => simp [pyLower] at h
  | cons c cs ih =>
    rcases List.mem_append.mp h with h1 | h2
    · exact ⟨c, List.mem_cons_self _ _, h1⟩
    · obtain ⟨c2, hc2, hd2⟩ := ih h2
      exact ⟨c2, List.mem_cons_of_mem _ hc2, hd2⟩

theorem pyLower_fixed {l : List Char} (h : ∀ c ∈ l, pyLowerChar c = [c]) :
    pyLower l = l := by
  induction l with
  | nil => rfl
  | cons c cs ih =>
    show pyLowerChar c ++ pyLower cs = c :: cs
    rw [h c (List.mem_cons_self _ _), ih fun a ha => h a (List.mem_cons_of_mem _ ha)]
    rfl


theorem mem_words (l : List Char) :
    ∀ w ∈ words l, w ≠ [] ∧ ∀ c ∈ w, isPySpace c = false :=
  match l with
  | [] => by simp [words_nil]
  | c :: cs =>
    if h : isPySpace c then by
      rw [words_cons_space cs h]
      exact mem_words cs
    else by
      have hf : isPySpace c = false := by simpa using h
      rw [words_cons_word cs hf]
      intro w hw
      rcases List.mem_cons.mp hw with rfl | hw2
      · refine ⟨by simp, ?_⟩
        intro x hx
        rcases List.mem_cons.mp hx with rfl | hx2
        · exact hf
        · have hp := List.mem_takeWhile_imp hx2
          simpa using hp
      · exact mem_words (cs.dropWhile (fun x => !isPySpace x)) w hw2
termination_by l.length
decreasing_by
  · simp only [List.length_cons]
    omega
  · have hlen : (cs.dropWhile (fun x => !isPySpace x)).length ≤ cs.length :=
      (List.dropWhile_sublist _).length_le
    simp only [List.length_cons]
    omega

theorem words_subset (l : List Char) :
    ∀ w ∈ words l, ∀ c ∈ w, c ∈ l :=
  match l with
  | [] => by simp [words_nil]
  | c :: cs =>
    if h : isPySpace c then by
      rw [words_cons_space cs h]
      intro w hw x hx
      exact List.mem_cons_of_mem c (words_subset cs w hw x hx)
    else by
      have hf : isPySpace c = false := by simpa using h
      rw [words_cons_word cs hf]
      intro w hw x hx
      rcases List.mem_cons.mp hw with rfl | hw2
      · rcases List.mem_cons.mp hx with rfl | hx2
        · exact List.mem_cons_self x cs
        · exact List.mem_cons_of_mem c ((List.takeWhile_sublist _).subset hx2)
      · have hx3 := words_subset (cs.dropWhile (fun x => !isPySpace x)) w hw2 x hx
        exact List.mem_cons_of_mem c ((List.dropWhile_sublist _).subset hx3)
termination_by l.length
decreasing_by
  · simp only [List.length_cons]
    omega
  · have hlen : (cs.dropWhile (fun x => !isPySpace x)).length ≤ cs.length :=
      (List.dropWhile_sublist _).length_le
    simp only [List.length_cons]
    omega

theorem takeWhile_all {p : Char → Bool} {l : List Char} (h : ∀ a ∈ l, p a = true) :
    l.takeWhile p = l := by
  induction l with
  | nil => rfl
  | cons x xs ih =>
    rw [List.takeWhile_cons, if_pos (h x (List.mem_cons_self x xs))]
    rw [ih fun a ha => h a (List.mem_cons_of_mem x ha)]

theorem dropWhile_all {p : Char → Bool} {l : List Char} (h : ∀ a ∈ l, p a = true) :
    l.dropWhile p = [] := by
  induction l with
  | nil => rfl
  | cons x xs ih =>
    rw [List.dropWhile_cons, if_pos (h x (List.mem_cons_self x xs))]
    exact ih fun a ha => h a (List.mem_cons_of_mem x ha)

theorem intercalate_singleton (w : List Char) :
    List.intercalate [' '] [w] = w := by
  simp [List.intercalate]

theorem intercalate_cons_cons (w w2 : List Char) (ws : List (List Char)) :
    List.intercalate [' '] (w :: w2 :: ws) =
      w ++ ' ' :: List.intercalate [' '] (w2 :: ws) := by
  simp [List.intercalate, List.intersperse_cons_cons]

/-- Splitting is a left inverse of joining with single spaces, for lists
of nonempty whitespace-free words. -/
theorem words_intercalate (ws : List (List Char))
    (h : ∀ w ∈ ws, w ≠ [] ∧ ∀ c ∈ w, isPySpace c = false) :
    words (List.intercalate [' '] ws) = ws := by
  induction ws with
  | nil => simp [List.intercalate, words_nil]
  | cons w ws ih =>
    obtain ⟨hne, hns⟩ := h w (List.mem_cons_self w ws)
    obtain ⟨c, cs, rfl⟩ := List.exists_cons_of_ne_nil hne
    have hc : isPySpace c = false := hns c (List.mem_cons_self c cs)
    have hcs : ∀ a ∈ cs, (!isPySpace a) = true := fun a ha => by
      simp [hns a (List.mem_cons_of_mem c ha)]
    cases ws with
    | nil =>
      rw [intercalate_singleton, words_cons_word cs hc, takeWhile_all hcs,
        dropWhile_all hcs, words_nil]
    | cons w2 ws =>
      rw [intercalate_cons_cons, List.cons_append, words_cons_word _ hc]
      have hsp : isPySpace ' ' = true := rfl
      have hsp2 : (!isPySpace ' ') = false := by simp [hsp]
      rw [List.takeWhile_append_of_pos hcs, List.dropWhile_append_of_pos hcs]
      rw [List.takeWhile_cons, List.dropWhile_cons]
      simp only [hsp2, Bool.false_eq_true, if_false, List.append_nil]
      rw [words_cons_space _ hsp]
      rw [ih fun v hv => h v (List.mem_cons_of_mem _ hv)]

/-- Any nonempty run of non-whitespace characters prepended to a list
forms the first word. -/
theorem words_append_word (u t : List Char) (hu : u ≠ [])
    (hns : ∀ c ∈ u, isPySpace c = false) :
    words (u ++ t)
      = (u ++ t.takeWhile (fun x => !isPySpace x)) ::
          words (t.dropWhile (fun x => !isPySpace x)) := by
  obtain ⟨c, u2, rfl⟩ := List.exists_cons_of_ne_nil hu
  rw [List.cons_append, words_cons_word _ (hns c (List.mem_cons_self c u2))]
  have hu2 : ∀ a ∈ u2, (fun x => !isPySpace x) a = true := fun a ha => by
    simp [hns a (List.mem_cons_of_mem c ha)]
  rw [List.takeWhile_append_of_pos hu2, List.dropWhile_append_of_pos hu2, List.cons_append]

theorem takeWhile_pyLower (l : List Char) :
    (pyLower l).takeWhile (fun x => !isPySpace x)
      = pyLower (l.takeWhile (fun x => !isPySpace x)) := by
  induction l with
  | nil => rfl
  | cons c cs ih =>
    by_cases hc : isPySpace c = true
    · rw [show pyLower (c :: cs) = pyLowerChar c ++ pyLower cs from rfl,
        pyLowerChar_space hc, List.singleton_append, List.takeWhile_cons,
        List.takeWhile_cons]
      simp only [hc, Bool.not_true, Bool.false_eq_true, if_false]
      rfl
    · have hcf : isPySpace c = false := by simpa using hc
      have hns : ∀ a ∈ pyLowerChar c, (fun x => !isPySpace x) a = true := fun a ha => by
        simp [pyLowerChar_nonspace hcf a ha]
      rw [show pyLower (c :: cs) = pyLowerChar c ++ pyLower cs from rfl,
        List.takeWhile_append_of_pos hns, ih, List.takeWhile_cons]
      simp only [hcf, Bool.not_false, if_true]
      rfl

theorem dropWhile_pyLower (l : List Char) :
    (pyLower l).dropWhile (fun x => !isPySpace x)
      = pyLower (l.dropWhile (fun x => !isPySpace x)) := by
  induction l with
  | nil => rfl
  | cons c cs ih =>
    by_cases hc : isPySpace c = true
    · rw [show pyLower (c :: cs) = pyLowerChar c ++ pyLower cs from rfl,
        pyLowerChar_space hc, List.singleton_append, List.dropWhile_cons,
        List.dropWhile_cons]
      simp only [hc, Bool.not_true, Bool.false_eq_true, if_false]
      rw [show pyLower (c :: cs) = pyLowerChar c ++ pyLower cs from rfl,
        pyLowerChar_space hc]
      rfl
    · have hcf : isPySpace c = false := by simpa using hc
      have hns : ∀ a ∈ pyLowerChar c, (fun x => !isPySpace x) a = true := fun a ha => by
        simp [pyLowerChar_nonspace hcf a ha]
      rw [show pyLower (c :: cs) = pyLowerChar c ++ pyLower cs from rfl,
        List.dropWhile_append_of_pos hns, ih, List.dropWhile_cons]
      simp only [hcf, Bool.not_false, if_true]

/-- Splitting commutes with Python lower-casing: lowercasing never
creates, destroys or changes whitespace, so the words of the lowered
text are the lowered words. -/
theorem words_pyLower (l : List Char) :
    words (pyLower l) = (words l).map pyLower :=
  match l with
  | [] => rfl
  | c :: cs =>
    if hc : isPySpace c then by
      rw [show pyLower (c :: cs) = pyLowerChar c ++ pyLower cs from rfl,
        pyLowerChar_space hc, List.singleton_append, words_cons_space _ hc,
        words_cons_space _ hc]
      exact words_pyLower cs
    else by
      have hcf : isPySpace c = false := by simpa using hc
      rw [show pyLower (c :: cs) = pyLowerChar c ++ pyLower cs from rfl,
        words_append_word (pyLowerChar c) (pyLower cs) (pyLowerChar_ne_nil c)
          (pyLowerChar_nonspace hcf),
        takeWhile_pyLower, dropWhile_pyLower,
        words_pyLower (cs.dropWhile fun x => !isPySpace x),
        words_cons_word _ hcf, List.map_cons]
      rfl
termination_by l.length
decreasing_by
  · simp only [List.length_cons]
    omega
  · have hlen : (cs.dropWhile (fun x => !isPySpace x)).length ≤ cs.length :=
      (List.dropWhile_sublist _).length_le
    simp only [List.length_cons]
    omega

theorem mem_intercalate_space {ws : List (List Char)} {c : Char}
    (h : c ∈ List.intercalate [' '] ws) : c = ' ' ∨ ∃ w ∈ ws, c ∈ w := by
  induction ws with
  | nil => simp [List.intercalate] at h
  | cons w ws ih =>
    cases ws with
    | nil =>
      rw [intercalate_singleton] at h
      exact Or.inr ⟨w, List.mem_cons_self _ _, h⟩
    | cons w2 ws2 =>
      rw [intercalate_cons_cons] at h
      rcases List.mem_append.mp h with h1 | h2
      · exact Or.inr ⟨w, List.mem_cons_self _ _, h1⟩
      · rcases List.mem_cons.mp h2 with rfl | h3
        · exact Or.inl rfl
        · rcases ih h3 with h4 | ⟨w3, hw3, hc3⟩
          · exact Or.inl h4
          · exact Or.inr ⟨w3, List.mem_cons_of_mem _ hw3, hc3⟩

/-- Every character of a normalized query is fixed by lower-casing (it
is a single space or comes from a lowercase expansion). -/
theorem normalizeChars_fixed_chars (l : List Char) :
    ∀ c ∈ normalizeChars l, pyLowerChar c = [c] := by
  intro c hc
  unfold normalizeChars at hc
  rcases mem_intercalate_space hc with rfl | ⟨w, hw, hcw⟩
  · exact pyLowerChar_space (by decide)
  · have hcl : c ∈ pyLower l := words_subset _ w hw c hcw
    obtain ⟨c2, _, hd⟩ := mem_pyLower hcl
    exact pyLowerChar_image_fixed c2 c hd

theorem normalizeChars_idem (l : List Char) :
    normalizeChars (normalizeChars l) = normalizeChars l := by
  have h1 : pyLower (normalizeChars l) = normalizeChars l :=
    pyLower_fixed (normalizeChars_fixed_chars l)
  show List.intercalate [' '] (words (pyLower (normalizeChars l))) = normalizeChars l
  rw [h1]
  show List.intercalate [' '] (words (List.intercalate [' '] (words (pyLower l))))
    = normalizeChars l
  rw [words_intercalate _ (mem_words (pyLower l))]
  rfl

/-- C10: `_normalize_query` is idempotent; two queries equal after
Python lower-casing (i.e. differing only in letter case) normalize
identically; and two queries with the same whitespace-split word
sequences (i.e. differing only in the amount or kind of
surrounding/internal whitespace) normalize identically — so cache
insert and lookup, which both normalize, agree on the key for such
queries. -/
theorem C10_normalize_query_invariance :
    (∀ q : String, normalize_query (normalize_query q) = normalize_query q) ∧
    (∀ q1 q2 : String, pyLower q1.data = pyLower q2.data →
      normalize_query q1 = normalize_query q2) ∧
    (∀ q1 q2 : String, words q1.data = words q2.data →
      normalize_query q1 = normalize_query q2) := by
  refine ⟨fun q => congrArg String.mk (normalizeChars_idem q.data), ?_, ?_⟩
  · intro q1 q2 h
    exact congrArg (fun m => String.mk (List.intercalate [' '] (words m))) h
  · intro q1 q2 h
    unfold normalize_query normalizeChars
    rw [words_pyLower, words_pyLower, h]

set_option maxRecDepth 8192 in
/-- Witness for C10 at concrete inputs: case variants (including the
non-ASCII pair É/é) and whitespace variants (including the file
separator `\x1c`, which Python splits on). -/
theorem C10_normalize_query_invariance_witness :
    normalize_query (normalize_query "  Mars   ROVER ") = normalize_query "  Mars   ROVER " ∧
    normalize_query "MARS Étoile" = normalize_query "mars étoile" ∧
    normalize_query " mars\x1Crover " = normalize_query "mars rover" :=
  ⟨C10_normalize_query_invariance.1 "  Mars   ROVER ",
   C10_normalize_query_invariance.2.1 "MARS Étoile" "mars étoile" (by decide),
   C10_normalize_query_invariance.2.2 " mars\x1Crover " "mars rover" (by decide)⟩


/-! ## Media cache (`database_client.py`, `get_cached_media` / `save_media_cache`)

The `media_cache` table is a list of rows.  `select ... .eq/.gt` filters
become a list filter; `.order("quality_score", desc).order("use_count",
desc).limit(1)` returns a maximal row in the lexicographic
(quality_score, use_count) order; `.update(...).eq("id", ...)` maps over
the rows with the given id; `.insert` appends. -/

structure MediaCacheEntry where
  id : Nat
  query : String
  source : String
  media_url : String
  local_path : String
  file_hash : String
  media_type : String
  resolution : Option String
  file_size : Nat
  quality_score : Int
  use_count : Nat
  last_used_at : ℤ
  expires_at : ℤ
deriving DecidableEq

/-- The row filter of `get_cached_media`: normalized-query equality,
`expires_at > now`, and the optional source filter. -/
def matchesLookup (nq : String) (source : Option String) (now : ℤ)
    (e : MediaCacheEntry) : Bool :=
  e.query = nq && now < e.expires_at &&
    (match source with
     | none => true
     | some s => e.source = s)

/-- Strictly-better in the result order of
`.order("quality_score", desc=True).order("use_count", desc=True)`. -/
def lexBetter (a b : MediaCacheEntry) : Bool :=
  b.quality_score < a.quality_score ||
    (a.quality_score = b.quality_score && b.use_count < a.use_count)

/-- The row returned by `... .limit(1).execute()` after the descending
order: a maximal row (the earliest among ties). -/
def pickBest : List MediaCacheEntry → Option MediaCacheEntry
  | [] => none
  | e :: rest =>
    match pickBest rest with
    | none => some e
    | some b => if lexBetter b e then some b else some e

/-- `DatabaseClient.get_cached_media(query, source)`: filter by
normalized query, non-expired, optional source; take the best row; on a
hit, update that row's `last_used_at` and `use_count` (the code writes
`media["use_count"] + 1`, the fetched row's count plus one, to every row
whose id matches).  Returns the fetched row (pre-update) and the new
table. -/
def get_cached_media (cache : List MediaCacheEntry) (query : String)
    (source : Option String) (now : ℤ) :
    Option MediaCacheEntry × List MediaCacheEntry :=
  match pickBest (cache.filter (matchesLookup (normalize_query query) source now)) with
  | none => (none, cache)
  | some m =>
    (some m,
      cache.map (fun e =>
        if e.id = m.id then
          { e with last_used_at := now, use_count := m.use_count + 1 }
        else e))

/-- `DatabaseClient.save_media_cache(...)`: look up by content hash
first; on a hit return the existing row's id (the code selects only
`id`) and leave the table unchanged; otherwise insert a fresh row with
`expires_at = now + 30 days`.  `nextId` models the id the store assigns
to the new row; `use_count`/`last_used_at` of a fresh row are the
store's defaults. -/
def save_media_cache (cache : List MediaCacheEntry) (nextId : Nat)
    (query source media_url local_path file_hash media_type : String)
    (resolution : Option String) (file_size : Nat) (quality_score : Int)
    (now : ℤ) : (Nat ⊕ MediaCacheEntry) × List MediaCacheEntry :=
  match cache.find? (fun e => e.file_hash = file_hash) with
  | some e => (Sum.inl e.id, cache)
  | none =>
    let entry : MediaCacheEntry :=
      { id := nextId
        query := normalize_query query
        source := source
        media_url := media_url
        local_path := local_path
        file_hash := file_hash
        media_type := media_type
        resolution := resolution
        file_size := file_size
        quality_score := quality_score
        use_count := 0
        last_used_at := now
        expires_at := now + 30 * 86400 }
    (Sum.inr entry, cache ++ [entry])

theorem lexBetter_irrefl (e : MediaCacheEntry) : lexBetter e e = false := by
  simp [lexBetter]

theorem lexBetter_asymm {a b : MediaCacheEntry} (h : lexBetter a b = true) :
    lexBetter b a = false := by
  simp only [lexBetter, Bool.or_eq_true, Bool.and_eq_true, decide_eq_true_eq] at h ⊢
  simp only [Bool.or_eq_false_iff, Bool.and_eq_false_iff]
  rcases h with h | ⟨h1, h2⟩
  · constructor
    · simp only [decide_eq_false_iff_not]
      omega
    · left
      simp only [decide_eq_false_iff_not]
      omega
  · constructor
    · simp only [decide_eq_false_iff_not]
      omega
    · right
      simp only [decide_eq_false_iff_not]
      omega

theorem lexBetter_neg_trans {a b c : MediaCacheEntry}
    (h1 : lexBetter a b = false) (h2 : lexBetter b c = false) :
    lexBetter a c = false := by
  simp only [lexBetter, Bool.or_eq_false_iff, Bool.and_eq_false_iff,
    decide_eq_false_iff_not] at h1 h2 ⊢
  obtain ⟨h1q, h1r⟩ := h1
  obtain ⟨h2q, h2r⟩ := h2
  constructor
  · omega
  · rcases h1r with h | h
    · left
      omega
    · rcases h2r with h' | h'
      · left
        omega
      · right
        omega

theorem pickBest_eq_none {l : List MediaCacheEntry} :
    pickBest l = none ↔ l = [] := by
  cases l with
  | nil => simp [pickBest]
  | cons e rest =>
    simp only [pickBest]
    cases pickBest rest with
    | none => simp
    | some b =>
      by_cases h : lexBetter b e = true <;> simp [h]

theorem pickBest_mem {l : List MediaCacheEntry} {m : MediaCacheEntry}
    (h : pickBest l = some m) : m ∈ l := by
  induction l with
  | nil => simp [pickBest] at h
  | cons e rest ih =>
    simp only [pickBest] at h
    cases hr : pickBest rest with
    | none =>
      rw [hr] at h
      simp at h
      simp [h]
    | some b =>
      rw [hr] at h
      by_cases hb : lexBetter b e = true
      · simp only [hb, if_true] at h
        simp at h
        subst h
        exact List.mem_cons_of_mem e (ih hr)
      · simp only [hb, if_false] at h
        simp [hb] at h
        simp [h]

theorem pickBest_max {l : List MediaCacheEntry} {m : MediaCacheEntry}
    (h : pickBest l = some m) : ∀ e ∈ l, lexBetter e m = false := by
  induction l generalizing m with
  | nil => simp
  | cons e rest ih =>
    simp only [pickBest] at h
    cases hr : pickBest rest with
    | none =>
      rw [hr] at h
      simp at h
      subst h
      have hrest : rest = [] := pickBest_eq_none.mp hr
      subst hrest
      intro x hx
      simp at hx
      subst hx
      exact lexBetter_irrefl x
    | some b =>
      rw [hr] at h
      by_cases hb : lexBetter b e = true
      · simp only [hb, if_true] at h
        simp at h
        subst h
        intro x hx
        rcases List.mem_cons.mp hx with rfl | hx2
        · exact lexBetter_asymm hb
        · exact ih hr x hx2
      · simp [hb] at h
        subst h
        have hbf : lexBetter b e = false := by simpa using hb
        intro x hx
        rcases List.mem_cons.mp hx with rfl | hx2
        · exact lexBetter_irrefl x
        · exact lexBetter_neg_trans (ih hr x hx2) hbf

/-- C3: an insert whose content hash equals the hash of an entry already
in the media cache creates no second row and returns the id of an
existing entry with that hash, leaving the table (and hence the
existing entry) unchanged; an insert with a fresh hash appends exactly
one new row whose expiry is insertion time plus 30 days. -/
theorem C3_save_media_cache_dedup (cache : List MediaCacheEntry) (nextId : Nat)
    (query source media_url local_path file_hash media_type : String)
    (resolution : Option String) (file_size : Nat) (quality_score : Int)
    (now : ℤ) :
    ((∃ e ∈ cache, e.file_hash = file_hash) →
      (save_media_cache cache nextId query source media_url local_path file_hash
          media_type resolution file_size quality_score now).2 = cache ∧
        ∃ e ∈ cache, e.file_hash = file_hash ∧
          (save_media_cache cache nextId query source media_url local_path file_hash
              media_type resolution file_size quality_score now).1 = Sum.inl e.id) ∧
    ((∀ e ∈ cache, e.file_hash ≠ file_hash) →
      ∃ entry : MediaCacheEntry,
        (save_media_cache cache nextId query source media_url local_path file_hash
            media_type resolution file_size quality_score now).1 = Sum.inr entry ∧
        (save_media_cache cache nextId query source media_url local_path file_hash
            media_type resolution file_size quality_score now).2 = cache ++ [entry] ∧
        entry.expires_at = now + 30 * 86400 ∧
        entry.file_hash = file_hash ∧
        entry.query = normalize_query query) := by
  unfold save_media_cache
  cases hf : cache.find? (fun e => e.file_hash = file_hash) with
  | some e =>
    refine ⟨fun _ => ⟨rfl, e, List.mem_of_find?_eq_some hf, ?_, rfl⟩, fun hall => ?_⟩
    · have hp := List.find?_some hf
      simpa using hp
    · exfalso
      have hp := List.find?_some hf
      have hm := List.mem_of_find?_eq_some hf
      exact hall e hm (by simpa using hp)
  | none =>
    refine ⟨fun hex => ?_, fun _ => ⟨_, rfl, rfl, rfl, rfl, rfl⟩⟩
    exfalso
    obtain ⟨e, hm, he⟩ := hex
    have hall := List.find?_eq_none.mp hf
    exact hall e hm (by simpa using he)

/-- Witness for C3: dedup against an existing hash, and a fresh insert. -/
theorem C3_save_media_cache_dedup_witness :
    ((save_media_cache
        [{ id := 1, query := "mars rover", source := "nasa", media_url := "uA",
           local_path := "pA", file_hash := "h1", media_type := "image",
           resolution := none, file_size := 10, quality_score := 5,
           use_count := 0, last_used_at := 0, expires_at := 1000 }] 7
        "q" "nasa" "u" "p" "h1" "image" none 0 5 100).2 =
      [{ id := 1, query := "mars rover", source := "nasa", media_url := "uA",
         local_path := "pA", file_hash := "h1", media_type := "image",
         resolution := none, file_size := 10, quality_score := 5,
         use_count := 0, last_used_at := 0, expires_at := 1000 }] ∧
      ∃ e ∈ [{ id := 1, query := "mars rover", source := "nasa", media_url := "uA",
               local_path := "pA", file_hash := "h1", media_type := "image",
               resolution := none, file_size := 10, quality_score := 5,
               use_count := 0, last_used_at := 0,
               expires_at := 1000 : MediaCacheEntry }],
        e.file_hash = "h1" ∧
          (save_media_cache
              [{ id := 1, query := "mars rover", source := "nasa", media_url := "uA",
                 local_path := "pA", file_hash := "h1", media_type := "image",
                 resolution := none, file_size := 10, quality_score := 5,
                 use_count := 0, last_used_at := 0, expires_at := 1000 }] 7
              "q" "nasa" "u" "p" "h1" "image" none 0 5 100).1 = Sum.inl e.id) ∧
    (∃ entry : MediaCacheEntry,
      (save_media_cache ([] : List MediaCacheEntry) 7
          "q" "nasa" "u" "p" "h9" "image" none 0 5 100).1 = Sum.inr entry ∧
      (save_media_cache ([] : List MediaCacheEntry) 7
          "q" "nasa" "u" "p" "h9" "image" none 0 5 100).2 = [] ++ [entry] ∧
      entry.expires_at = 100 + 30 * 86400 ∧
      entry.file_hash = "h9" ∧
      entry.query = normalize_query "q") :=
  ⟨(C3_save_media_cache_dedup
      [{ id := 1, query := "mars rover", source := "nasa", media_url := "uA",
         local_path := "pA", file_hash := "h1", media_type := "image",
         resolution := none, file_size := 10, quality_score := 5,
         use_count := 0, last_used_at := 0, expires_at := 1000 }] 7
      "q" "nasa" "u" "p" "h1" "image" none 0 5 100).1
    ⟨{ id := 1, query := "mars rover", source := "nasa", media_url := "uA",
       local_path := "pA", file_hash := "h1", media_type := "image",
       resolution := none, file_size := 10, quality_score := 5,
       use_count := 0, last_used_at := 0, expires_at := 1000 }, by decide⟩,
   (C3_save_media_cache_dedup ([] : List MediaCacheEntry) 7
      "q" "nasa" "u" "p" "h9" "image" none 0 5 100).2
    (by intro e he; exact absurd he (List.not_mem_nil e))⟩

/-- C4: a successful lookup returns an entry of the table that matches
the normalized query and is not expired, which is maximal among all
matching non-expired entries in the (quality score, use count)
lexicographic order (highest quality, ties by highest use count,
regardless of position/insertion order); and, when row ids are unique,
the post-state is the table with exactly that entry's `use_count`
incremented by one and `last_used_at` refreshed, all other rows
untouched. -/
theorem C4_get_cached_media_lookup (cache : List MediaCacheEntry) (query : String)
    (source : Option String) (now : ℤ) (m : MediaCacheEntry)
    (hres : (get_cached_media cache query source now).1 = some m) :
    m ∈ cache ∧
    m.query = normalize_query query ∧
    now < m.expires_at ∧
    (∀ e ∈ cache, matchesLookup (normalize_query query) source now e = true →
      lexBetter e m = false) ∧
    ((cache.map MediaCacheEntry.id).Nodup →
      (get_cached_media cache query source now).2 =
        cache.map (fun e =>
          if e.id = m.id then
            { e with last_used_at := now, use_count := e.use_count + 1 }
          else e)) := by
  unfold get_cached_media at hres ⊢
  cases hp : pickBest (cache.filter (matchesLookup (normalize_query query) source now)) with
  | none =>
    rw [hp] at hres
    simp at hres
  | some b =>
    rw [hp] at hres
    simp only [Option.some.injEq] at hres
    subst hres
    have hmem := pickBest_mem hp
    have hmf := List.mem_filter.mp hmem
    have hmatch := hmf.2
    have hq : b.query = normalize_query query := by
      simp only [matchesLookup, Bool.and_eq_true, decide_eq_true_eq] at hmatch
      exact hmatch.1.1
    have hexp : now < b.expires_at := by
      simp only [matchesLookup, Bool.and_eq_true, decide_eq_true_eq] at hmatch
      exact hmatch.1.2
    refine ⟨hmf.1, hq, hexp, ?_, ?_⟩
    · intro e he hme
      exact pickBest_max hp e (List.mem_filter.mpr ⟨he, hme⟩)
    · intro hnd
      simp only [hp]
      apply List.map_congr_left
      intro e he
      by_cases hid : e.id = b.id
      · have heq : e = b := List.inj_on_of_nodup_map hnd he hmf.1 hid
        subst heq
        simp [hid]
      · simp [hid]

/-- Sample cache row used in concrete witnesses. -/
def entryA : MediaCacheEntry :=
  { id := 1, query := "mars rover", source := "nasa", media_url := "uA",
    local_path := "pA", file_hash := "h1", media_type := "image",
    resolution := none, file_size := 10, quality_score := 5,
    use_count := 0, last_used_at := 0, expires_at := 1000 }

/-- Second sample cache row (higher quality score) used in witnesses. -/
def entryB : MediaCacheEntry :=
  { id := 2, query := "mars rover", source := "pexels", media_url := "uB",
    local_path := "pB", file_hash := "h2", media_type := "image",
    resolution := none, file_size := 20, quality_score := 7,
    use_count := 3, last_used_at := 0, expires_at := 1000 }

set_option maxRecDepth 8192 in
/-- Witness for C4: a two-row cache where the lower-quality row was
inserted first; lookup returns the higher-quality row and bumps it. -/
theorem C4_get_cached_media_lookup_witness :
    entryB ∈ [entryA, entryB] ∧
    entryB.query = normalize_query "MARS  Rover" ∧
    (100 : ℤ) < entryB.expires_at ∧
    (∀ e ∈ [entryA, entryB],
      matchesLookup (normalize_query "MARS  Rover") none 100 e = true →
        lexBetter e entryB = false) ∧
    (([entryA, entryB].map MediaCacheEntry.id).Nodup →
      (get_cached_media [entryA, entryB] "MARS  Rover" none 100).2 =
        [entryA, entryB].map (fun e =>
          if e.id = entryB.id then
            { e with last_used_at := 100, use_count := e.use_count + 1 }
          else e)) :=
  C4_get_cached_media_lookup [entryA, entryB] "MARS  Rover" none 100 entryB (by decide)

/-! ## Health tracker (`database_client.py`, `track_api_call` / `get_api_health`)

The `api_tracking` table is a list of append-only records. -/

structure APICallRecord where
  source : String
  query : String
  success : Bool
  response_time_ms : ℤ
  error_message : Option String
  created_at : ℤ
deriving DecidableEq

structure APIHealth where
  success_rate : ℚ
  avg_response_time : ℚ
  total_calls : Nat
deriving DecidableEq

/-- `DatabaseClient.track_api_call(...)`: append one record. -/
def track_api_call (log : List APICallRecord) (source query : String)
    (success : Bool) (response_time_ms : ℤ) (error_message : Option String)
    (now : ℤ) : List APICallRecord :=
  log ++ [{ source := source, query := query, success := success,
            response_time_ms := response_time_ms,
            error_message := error_message, created_at := now }]

/-- The row filter of `get_api_health`: `source` equality and
`created_at > cutoff`. -/
def inWindow (source : String) (cutoff : ℤ) (r : APICallRecord) : Bool :=
  r.source = source && cutoff < r.created_at

/-- `DatabaseClient.get_api_health(source, minutes)`: filter the call log
to the source within the trailing window; with no matching rows return
the permissive default `success_rate = 1.0`; otherwise successes divided
by total, and the mean response time. -/
def get_api_health (log : List APICallRecord) (source : String)
    (minutes : ℤ) (now : ℤ) : APIHealth :=
  let data := log.filter (inWindow source (now - minutes * 60))
  if data.length = 0 then
    { success_rate := 1, avg_response_time := 0, total_calls := 0 }
  else
    { success_rate := ((data.countP (fun r => r.success)) : ℚ) / (data.length : ℚ)
      avg_response_time := (((data.map (fun r => r.response_time_ms)).sum : ℤ) : ℚ) / (data.length : ℚ)
      total_calls := data.length }

/-- C8: with zero call records for the source inside the trailing window
the health report is the permissive default `success_rate = 1` with zero
total calls; with at least one record in the window, `success_rate` is
the number of successful in-window records divided by the total number
of in-window records. -/
theorem C8_health_permissive_default (log : List APICallRecord) (source : String)
    (minutes now : ℤ) :
    ((∀ r ∈ log, inWindow source (now - minutes * 60) r = false) →
      (get_api_health log source minutes now).success_rate = 1 ∧
      (get_api_health log source minutes now).total_calls = 0) ∧
    ((∃ r ∈ log, inWindow source (now - minutes * 60) r = true) →
      (get_api_health log source minutes now).success_rate =
        ((log.countP (fun r => inWindow source (now - minutes * 60) r && r.success)) : ℚ) /
          ((log.countP (inWindow source (now - minutes * 60))) : ℚ) ∧
      (get_api_health log source minutes now).total_calls =
        log.countP (inWindow source (now - minutes * 60))) := by
  constructor
  · intro hall
    have hnil : log.filter (inWindow source (now - minutes * 60)) = [] := by
      rw [List.filter_eq_nil_iff]
      intro r hr
      simp [hall r hr]
    unfold get_api_health
    rw [hnil]
    simp
  · intro hex
    have hne : log.filter (inWindow source (now - minutes * 60)) ≠ [] := by
      obtain ⟨r, hr, hw⟩ := hex
      intro hnil
      rw [List.filter_eq_nil_iff] at hnil
      exact hnil r hr (by simp [hw])
    have hlen : (log.filter (inWindow source (now - minutes * 60))).length ≠ 0 := by
      simpa [List.length_eq_zero] using hne
    unfold get_api_health
    rw [if_neg hlen]
    constructor
    · rw [List.countP_filter]
      have hcomm :
          (fun a : APICallRecord => a.success && inWindow source (now - minutes * 60) a)
            = (fun r : APICallRecord =>
                inWindow source (now - minutes * 60) r && r.success) := by
        funext a
        exact Bool.and_comm _ _
      rw [hcomm]
      simp only [List.countP_eq_length_filter]
    · show (List.filter (inWindow source (now - minutes * 60)) log).length =
        List.countP (inWindow source (now - minutes * 60)) log
      rw [List.countP_eq_length_filter]

/-- Sample call record used in concrete witnesses. -/
def recW : APICallRecord :=
  { source := "nasa", query := "", success := true, response_time_ms := 5,
    error_message := none, created_at := 990 }

/-- Witness for C8: an empty log yields the permissive default; a log
with one in-window record yields the computed ratio. -/
theorem C8_health_permissive_default_witness :
    ((get_api_health [] "nasa" 30 1000).success_rate = 1 ∧
      (get_api_health [] "nasa" 30 1000).total_calls = 0) ∧
    ((get_api_health [recW] "nasa" 30 1000).success_rate =
        (([recW].countP (fun r => inWindow "nasa" (1000 - 30 * 60) r && r.success)) : ℚ) /
          (([recW].countP (inWindow "nasa" (1000 - 30 * 60))) : ℚ) ∧
      (get_api_health [recW] "nasa" 30 1000).total_calls =
        [recW].countP (inWindow "nasa" (1000 - 30 * 60))) :=
  ⟨(C8_health_permissive_default [] "nasa" 30 1000).1 (by simp),
   (C8_health_permissive_default [recW] "nasa" 30 1000).2 ⟨recW, by decide⟩⟩

/-! ## Resource governor (`resource_manager.py`, `get_optimal_workers`)

`cpu_count` is `os.cpu_count() or 4`; `available_memory` is
`psutil.virtual_memory().available` in bytes; `memory_gb` divides by
`1024 ** 3` exactly (rational division models the float division for
the comparison thresholds). -/

/-- `ResourceManager.get_optimal_workers(min_workers, max_workers)`. -/
def get_optimal_workers (cpu_count : Nat) (available_memory : Nat)
    (min_workers : Nat) (max_workers : Nat) : Nat :=
  let memory_gb : ℚ := (available_memory : ℚ) / (1024 ^ 3 : ℚ)
  let workers :=
    if memory_gb < 4 then min_workers
    else if memory_gb < 8 then min (cpu_count / 2) max_workers
    else min cpu_count max_workers
  max min_workers workers

theorem memory_gb_lt (m k : Nat) :
    ((m : ℚ) / (1024 ^ 3 : ℚ) < (k : ℚ)) ↔ m < k * 1024 ^ 3 := by
  rw [div_lt_iff₀ (by norm_num)]
  exact_mod_cast Iff.rfl

/-- The ℚ comparisons on `memory_gb` reduced to integer byte
thresholds. -/
theorem get_optimal_workers_eq (cpu_count m minw maxw : Nat) :
    get_optimal_workers cpu_count m minw maxw
      = max minw (if m < 4 * 1024 ^ 3 then minw
          else if m < 8 * 1024 ^ 3 then min (cpu_count / 2) maxw
          else min cpu_count maxw) := by
  have h4 : ((m : ℚ) / (1024 ^ 3 : ℚ) < (4 : ℚ)) ↔ m < 4 * 1024 ^ 3 := by
    have h := memory_gb_lt m 4
    simpa using h
  have h8 : ((m : ℚ) / (1024 ^ 3 : ℚ) < (8 : ℚ)) ↔ m < 8 * 1024 ^ 3 := by
    have h := memory_gb_lt m 8
    simpa using h
  unfold get_optimal_workers
  simp only [h4, h8]

/-- C9: the worker count is a step function of available memory — below
4GB it is exactly `min_workers` (regardless of CPU count); in [4GB, 8GB)
it is `min(cpu_count / 2, max_workers)` floored at `min_workers`; at 8GB
or more it is `min(cpu_count, max_workers)` floored at `min_workers`; in
particular with the default arguments (2, 8) it returns exactly 2
whenever available memory is below 4GB. -/
theorem C9_optimal_workers_step (cpu_count available_memory min_workers max_workers : Nat) :
    (available_memory < 4 * 1024 ^ 3 →
      get_optimal_workers cpu_count available_memory min_workers max_workers
        = min_workers) ∧
    (4 * 1024 ^ 3 ≤ available_memory → available_memory < 8 * 1024 ^ 3 →
      get_optimal_workers cpu_count available_memory min_workers max_workers
        = max min_workers (min (cpu_count / 2) max_workers)) ∧
    (8 * 1024 ^ 3 ≤ available_memory →
      get_optimal_workers cpu_count available_memory min_workers max_workers
        = max min_workers (min cpu_count max_workers)) ∧
    (available_memory < 4 * 1024 ^ 3 →
      get_optimal_workers cpu_count available_memory 2 8 = 2) := by
  refine ⟨?_, ?_, ?_, ?_⟩
  · intro hm
    rw [get_optimal_workers_eq, if_pos hm]
    simp
  · intro hm1 hm2
    rw [get_optimal_workers_eq, if_neg (by omega), if_pos hm2]
  · intro hm
    rw [get_optimal_workers_eq, if_neg (by omega), if_neg (by omega)]
  · intro hm
    rw [get_optimal_workers_eq, if_pos hm]
    simp

/-- Witness for C9 at concrete system states (16 CPUs; 2GB, 6GB, 16GB
available). -/
theorem C9_optimal_workers_step_witness :
    get_optimal_workers 16 (2 * 1024 ^ 3) 3 8 = 3 ∧
    get_optimal_workers 16 (6 * 1024 ^ 3) 3 8 = max 3 (min (16 / 2) 8) ∧
    get_optimal_workers 16 (16 * 1024 ^ 3) 3 8 = max 3 (min 16 8) ∧
    get_optimal_workers 16 (2 * 1024 ^ 3) 2 8 = 2 :=
  ⟨(C9_optimal_workers_step 16 (2 * 1024 ^ 3) 3 8).1 (by norm_num),
   (C9_optimal_workers_step 16 (6 * 1024 ^ 3) 3 8).2.1 (by norm_num) (by norm_num),
   (C9_optimal_workers_step 16 (16 * 1024 ^ 3) 3 8).2.2.1 (by norm_num),
   (C9_optimal_workers_step 16 (2 * 1024 ^ 3) 2 8).2.2.2 (by norm_num)⟩

/-! ## Retry executor (`api_manager.py`, `APIManager.retry_with_backoff`)

The zero-argument operation `func` is modelled as a function from the
attempt index to `Except String α` (each attempt either returns a value
or raises with a message).  The executor returns its outcome together
with the list of per-attempt call records (one per attempt, in order —
each of which also drives exactly one breaker update, see
`applyBreakerOps`) and the list of back-off sleeps performed. -/

inductive RetryResult (α : Type) where
  | success : α → RetryResult α
  | raised : String → RetryResult α
  | exhausted : RetryResult α
deriving DecidableEq

/-- One `track_api_call` record emitted by an attempt (success flag and
error message; `query` is always `""` and the response time is wall
clock, not modelled). -/
structure CallRec where
  success : Bool
  error_message : Option String
deriving DecidableEq

/-- The loop body of `retry_with_backoff` from attempt index `attempt`:
on success log a success record and return; on failure log a failure
record, re-raise if this was the last allowed attempt, otherwise sleep
`base_delay * 2 ** attempt` and continue.  Falling out of the loop
(only possible when `max_retries = 0`) returns `None`, modelled as
`exhausted`. -/
def retryFrom {α : Type} (op : Nat → Except String α) (max_retries : Nat)
    (base_delay : ℚ) (attempt : Nat) :
    RetryResult α × List CallRec × List ℚ :=
  if attempt < max_retries then
    match op attempt with
    | Except.ok r => (RetryResult.success r, [⟨true, none⟩], [])
    | Except.error e =>
      if attempt = max_retries - 1 then
        (RetryResult.raised e, [⟨false, some e⟩], [])
      else
        let rest := retryFrom op max_retries base_delay (attempt + 1)
        (rest.1, ⟨false, some e⟩ :: rest.2.1, base_delay * 2 ^ attempt :: rest.2.2)
  else (RetryResult.exhausted, [], [])
termination_by max_retries - attempt
decreasing_by omega

/-- `APIManager.retry_with_backoff(func, max_retries, base_delay)`. -/
def retry_with_backoff {α : Type} (op : Nat → Except String α)
    (max_retries : Nat) (base_delay : ℚ) :
    RetryResult α × List CallRec × List ℚ :=
  retryFrom op max_retries base_delay 0

/-- The call record an attempt with index `i` produces. -/
def failRec {α : Type} (op : Nat → Except String α) (i : Nat) : CallRec :=
  match op i with
  | Except.ok _ => ⟨true, none⟩
  | Except.error e => ⟨false, some e⟩

/-- The message of the failure at attempt `i` (unused default for a
successful attempt). -/
def errOf {α : Type} (op : Nat → Except String α) (i : Nat) : String :=
  match op i with
  | Except.ok _ => ""
  | Except.error e => e

theorem retryFrom_of_success {α : Type} (op : Nat → Except String α) (n : Nat) (d : ℚ)
    (a j : Nat) (r : α) (haj : a ≤ j) (hjn : j < n)
    (hfail : ∀ i, a ≤ i → i < j → ∃ e, op i = Except.error e)
    (hok : op j = Except.ok r) :
    retryFrom op n d a =
      (RetryResult.success r,
       (List.range' a (j - a)).map (failRec op) ++ [⟨true, none⟩],
       (List.range' a (j - a)).map (fun i => d * 2 ^ i)) :=
  if haj' : a = j then by
    subst haj'
    unfold retryFrom
    rw [if_pos hjn, hok]
    simp [Nat.sub_self]
  else by
    have halt : a < j := Nat.lt_of_le_of_ne haj haj'
    obtain ⟨e, he⟩ := hfail a Nat.le.refl halt
    have ih := retryFrom_of_success op n d (a + 1) j r (by omega) hjn
      (fun i h1 h2 => hfail i (by omega) h2) hok
    unfold retryFrom
    rw [if_pos (show a < n by omega), he]
    simp only [if_neg (show ¬ a = n - 1 by omega), ih]
    have hsub : j - a = (j - (a + 1)) + 1 := by omega
    rw [hsub, List.range'_succ]
    simp [failRec, he]
termination_by j - a

theorem retryFrom_of_allfail {α : Type} (op : Nat → Except String α) (n : Nat) (d : ℚ)
    (a : Nat) (han : a < n)
    (hfail : ∀ i, a ≤ i → i < n → ∃ e, op i = Except.error e) :
    retryFrom op n d a =
      (RetryResult.raised (errOf op (n - 1)),
       (List.range' a (n - a)).map (failRec op),
       (List.range' a (n - 1 - a)).map (fun i => d * 2 ^ i)) :=
  if hlast : a = n - 1 then by
    obtain ⟨e, he⟩ := hfail a Nat.le.refl han
    unfold retryFrom
    rw [if_pos han, he]
    simp only [if_pos hlast]
    subst hlast
    have h1 : n - (n - 1) = 1 := by omega
    have h2 : n - 1 - (n - 1) = 0 := by omega
    rw [h1, h2]
    simp [failRec, errOf, he, List.range'_one]
  else by
    have haltn : a < n - 1 := by omega
    obtain ⟨e, he⟩ := hfail a Nat.le.refl han
    have ih := retryFrom_of_allfail op n d (a + 1) (by omega)
      (fun i h1 h2 => hfail i (by omega) h2)
    unfold retryFrom
    rw [if_pos han, he]
    simp only [if_neg hlast, ih]
    have hs1 : n - a = (n - (a + 1)) + 1 := by omega
    have hs2 : n - 1 - a = (n - 1 - (a + 1)) + 1 := by omega
    rw [hs1, hs2, List.range'_succ, List.range'_succ]
    simp [failRec, he]
termination_by n - a

theorem retryFrom_success_inv {α : Type} (op : Nat → Except String α) (n : Nat) (d : ℚ)
    (a : Nat) (r : α) (h : (retryFrom op n d a).1 = RetryResult.success r) :
    ∃ j, a ≤ j ∧ j < n ∧ op j = Except.ok r := by
  by_cases han : a < n
  · unfold retryFrom at h
    rw [if_pos han] at h
    cases ho : op a with
    | ok v =>
      rw [ho] at h
      simp at h
      subst h
      exact ⟨a, Nat.le.refl, han, ho⟩
    | error e =>
      rw [ho] at h
      by_cases hl : a = n - 1
      · simp only [if_pos hl] at h
        simp at h
      · simp only [if_neg hl] at h
        obtain ⟨j, hj1, hj2, hj3⟩ := retryFrom_success_inv op n d (a + 1) r h
        exact ⟨j, by omega, hj2, hj3⟩
  · unfold retryFrom at h
    rw [if_neg han] at h
    simp at h
termination_by n - a
decreasing_by omega

/-- C5: with `max_retries ≥ 1`, (a) if the operation fails on every
attempt before `j` and succeeds at attempt `j < max_retries`, the
executor returns the result immediately with exactly one call record per
attempt (j failures then one success — each record driving one breaker
update) and back-off sleeps `d * 2^i` for `i = 0..j-1`; (b) if every
allowed attempt fails, the failure of the final attempt propagates
(`raised`), with exactly `max_retries` failure records and sleeps
`d * 2^i` for `i = 0..max_retries-2` (no sleep after the final
attempt). -/
theorem C5_retry_executor {α : Type} (op : Nat → Except String α)
    (max_retries : Nat) (d : ℚ) (hmr : 1 ≤ max_retries) :
    (∀ j r, j < max_retries → (∀ i, i < j → ∃ e, op i = Except.error e) →
      op j = Except.ok r →
      retry_with_backoff op max_retries d =
        (RetryResult.success r,
         (List.range' 0 j).map (failRec op) ++ [⟨true, none⟩],
         (List.range' 0 j).map (fun i => d * 2 ^ i))) ∧
    ((∀ i, i < max_retries → ∃ e, op i = Except.error e) →
      retry_with_backoff op max_retries d =
        (RetryResult.raised (errOf op (max_retries - 1)),
         (List.range' 0 max_retries).map (failRec op),
         (List.range' 0 (max_retries - 1)).map (fun i => d * 2 ^ i))) := by
  constructor
  · intro j r hj hfail hok
    have h := retryFrom_of_success op max_retries d 0 j r (Nat.zero_le j) hj
      (fun i _ h2 => hfail i h2) hok
    simpa [retry_with_backoff] using h
  · intro hfail
    have h := retryFrom_of_allfail op max_retries d 0 (by omega)
      (fun i _ h2 => hfail i h2)
    simpa [retry_with_backoff] using h

/-- Operation used in the C5 witness: fails once, then succeeds. -/
def opOnceFail : Nat → Except String Nat :=
  fun i => if i = 0 then Except.error "boom" else Except.ok 42

/-- Operation used in the C5 witness: always fails. -/
def opAlwaysFail : Nat → Except String Nat :=
  fun _ => Except.error "down"

/-- Witness for C5: three allowed attempts; one transient failure then
success, and the always-failing case. -/
theorem C5_retry_executor_witness :
    retry_with_backoff opOnceFail 3 1 =
      (RetryResult.success 42,
       (List.range' 0 1).map (failRec opOnceFail) ++ [⟨true, none⟩],
       (List.range' 0 1).map (fun i => (1 : ℚ) * 2 ^ i)) ∧
    retry_with_backoff opAlwaysFail 3 1 =
      (RetryResult.raised (errOf opAlwaysFail (3 - 1)),
       (List.range' 0 3).map (failRec opAlwaysFail),
       (List.range' 0 (3 - 1)).map (fun i => (1 : ℚ) * 2 ^ i)) :=
  ⟨(C5_retry_executor opOnceFail 3 1 (by decide)).1 1 42 (by decide)
    (fun i hi => ⟨"boom", by
      have h0 : i = 0 := by omega
      subst h0
      rfl⟩) rfl,
   (C5_retry_executor opAlwaysFail 3 1 (by decide)).2
    (fun i _ => ⟨"down", rfl⟩)⟩

/-! ## Acquisition orchestrator (`api_manager.py`, `APIManager.search_with_fallback`)

The shared mutable state (media cache table, api_tracking log, and the
in-process circuit breaker) is bundled into a `World`.  The provider
network behaviour is a parameter `providerFn source attempt`, the
outcome of the underlying `_search_<source>` call on a given retry
attempt (`Except.error` = raised exception, `ok none` = no result,
`ok (some url)` = asset found).  `_search_source` wraps each provider in
`retry_with_backoff` with the defaults `max_retries=3, base_delay=1.0`;
its records are appended to the log (via `track_api_call`) and each
record drives one breaker update. -/

structure World where
  cache : List MediaCacheEntry
  log : List APICallRecord
  breaker : CircuitBreaker

/-- The provider ordering chosen by `search_with_fallback`. -/
def searchOrder (prefer_video : Bool) : List String :=
  if prefer_video then ["pixabay", "nasa", "pexels", "giphy"]
  else ["nasa", "pixabay", "pexels", "unsplash"]

/-- The breaker updates performed by the retry loop: one
`record_success`/`record_failure` per attempt, in order. -/
def applyBreakerOps (cb : CircuitBreaker) (source : String)
    (recs : List CallRec) (now : ℤ) : CircuitBreaker :=
  recs.foldl
    (fun c r => if r.success then c.record_success source else c.record_failure source now) cb

/-- The `track_api_call` rows the retry loop appends: one per attempt
(query `""`, wall-clock response time not modelled). -/
def recsToLog (source : String) (now : ℤ) (recs : List CallRec) : List APICallRecord :=
  recs.map (fun r =>
    { source := source, query := "", success := r.success, response_time_ms := 0,
      error_message := r.error_message, created_at := now })

/-- The provider loop of `search_with_fallback`: skip a source whose
circuit is open (the check itself may mutate the breaker) or whose
30-minute success rate is below 0.3; otherwise run the retry executor,
commit its log records and breaker updates, return the url on a
non-empty result and continue otherwise (a raised exception is swallowed
by the bare `except: continue`). -/
def searchGo (providerFn : String → Nat → Except String (Option String)) (now : ℤ) :
    List String → World → Option String × World
  | [], w => (none, w)
  | s :: rest, w =>
    if (w.breaker.is_open s now).1 then
      searchGo providerFn now rest { w with breaker := (w.breaker.is_open s now).2 }
    else
      let w1 : World := { w with breaker := (w.breaker.is_open s now).2 }
      if (get_api_health w1.log s 30 now).success_rate < (3 : ℚ) / 10 then
        searchGo providerFn now rest w1
      else
        let res := retry_with_backoff (providerFn s) 3 1
        let w2 : World :=
          { w1 with
            log := w1.log ++ recsToLog s now res.2.1
            breaker := applyBreakerOps w1.breaker s res.2.1 now }
        match res.1 with
        | RetryResult.success (some url) => (some url, w2)
        | _ => searchGo providerFn now rest w2

/-- `APIManager.search_with_fallback(query, prefer_video)`: cache lookup
first (returning the cached url on a hit, with the cache's own usage
bump); otherwise iterate the provider ordering. -/
def search_with_fallback (w : World) (query : String) (prefer_video : Bool)
    (providerFn : String → Nat → Except String (Option String)) (now : ℤ) :
    Option String × World :=
  match (get_cached_media w.cache query none now).1 with
  | some media =>
    (some media.media_url, { w with cache := (get_cached_media w.cache query none now).2 })
  | none =>
    searchGo providerFn now (searchOrder prefer_video)
      { w with cache := (get_cached_media w.cache query none now).2 }

/-- C6: on a cache hit, search returns the cached entry's url directly,
issues zero provider calls — no call record is logged, the breaker is
untouched, and the result does not depend on the provider functions at
all — and only the cache table changes (by the lookup's own usage
bump). -/
theorem C6_cache_bypass (w : World) (query : String) (prefer_video : Bool)
    (providerFn : String → Nat → Except String (Option String)) (now : ℤ)
    (m : MediaCacheEntry)
    (hhit : (get_cached_media w.cache query none now).1 = some m) :
    (search_with_fallback w query prefer_video providerFn now).1 = some m.media_url ∧
    (search_with_fallback w query prefer_video providerFn now).2.log = w.log ∧
    (search_with_fallback w query prefer_video providerFn now).2.breaker = w.breaker ∧
    (∀ g, search_with_fallback w query prefer_video providerFn now
        = search_with_fallback w query prefer_video g now) := by
  unfold search_with_fallback
  rw [hhit]
  exact ⟨rfl, rfl, rfl, fun g => rfl⟩

/-- Provider behaviour used in witnesses: every call raises. -/
def provDown : String → Nat → Except String (Option String) :=
  fun _ _ => Except.error "down"

set_option maxRecDepth 8192 in
/-- Witness for C6: a one-row cache hit; the log and breaker are
untouched and the providers are never consulted. -/
theorem C6_cache_bypass_witness :
    (search_with_fallback
        { cache := [entryA], log := [], breaker := CircuitBreaker.default }
        "Mars  Rover" false provDown 100).1 = some entryA.media_url ∧
    (search_with_fallback
        { cache := [entryA], log := [], breaker := CircuitBreaker.default }
        "Mars  Rover" false provDown 100).2.log =
      World.log { cache := [entryA], log := [], breaker := CircuitBreaker.default } ∧
    (search_with_fallback
        { cache := [entryA], log := [], breaker := CircuitBreaker.default }
        "Mars  Rover" false provDown 100).2.breaker =
      World.breaker { cache := [entryA], log := [], breaker := CircuitBreaker.default } ∧
    (∀ g,
      search_with_fallback
          { cache := [entryA], log := [], breaker := CircuitBreaker.default }
          "Mars  Rover" false provDown 100
        = search_with_fallback
            { cache := [entryA], log := [], breaker := CircuitBreaker.default }
            "Mars  Rover" false g 100) :=
  C6_cache_bypass
    { cache := [entryA], log := [], breaker := CircuitBreaker.default }
    "Mars  Rover" false provDown 100 entryA (by decide)

theorem get_cached_media_miss_snd (cache : List MediaCacheEntry) (query : String)
    (source : Option String) (now : ℤ)
    (h : (get_cached_media cache query source now).1 = none) :
    (get_cached_media cache query source now).2 = cache := by
  unfold get_cached_media at h ⊢
  cases hp : pickBest (cache.filter (matchesLookup (normalize_query query) source now)) with
  | none => rfl
  | some b =>
    rw [hp] at h
    simp at h

theorem searchGo_cons_open (f : String → Nat → Except String (Option String)) (now : ℤ)
    (s : String) (rest : List String) (w : World)
    (hs : (w.breaker.is_open s now).1 = true) :
    searchGo f now (s :: rest) w = searchGo f now rest w := by
  simp only [searchGo]
  rw [if_pos hs, is_open_snd_of_true w.breaker s now hs]

theorem searchGo_cons_low_health (f : String → Nat → Except String (Option String))
    (now : ℤ) (s : String) (rest : List String) (w : World)
    (hs : (w.breaker.is_open s now).1 = false)
    (hh : (get_api_health w.log s 30 now).success_rate < (3 : ℚ) / 10) :
    searchGo f now (s :: rest) w
      = searchGo f now rest { w with breaker := (w.breaker.is_open s now).2 } := by
  simp only [searchGo]
  rw [if_neg (by simp [hs])]
  rw [if_pos hh]

theorem searchGo_all_open (f : String → Nat → Except String (Option String)) (now : ℤ)
    (sources : List String) (w : World)
    (h : ∀ s ∈ sources, (w.breaker.is_open s now).1 = true) :
    searchGo f now sources w = (none, w) := by
  induction sources with
  | nil => rfl
  | cons s rest ih =>
    rw [searchGo_cons_open f now s rest w (h s (List.mem_cons_self s rest))]
    exact ih fun x hx => h x (List.mem_cons_of_mem s hx)

theorem searchGo_no_url (f : String → Nat → Except String (Option String)) (now : ℤ)
    (sources : List String)
    (hf : ∀ s i url, f s i ≠ Except.ok (some url)) :
    ∀ w, (searchGo f now sources w).1 = none := by
  induction sources with
  | nil =>
    intro w
    rfl
  | cons s rest ih =>
    intro w
    simp only [searchGo]
    split
    · exact ih _
    · split
      · exact ih _
      · split
        · next url heq =>
          exfalso
          obtain ⟨j, _, _, hok⟩ := retryFrom_success_inv (f s) 3 1 0 (some url)
            (by simpa [retry_with_backoff] using heq)
          exact hf s j url hok
        · exact ih _

/-- C7: on a cache miss, (i) if every provider in the ordering has an
open circuit, search returns no asset with the whole world unchanged —
no record logged, no breaker change, and no dependence on the provider
functions (zero network calls); (ii) if no provider call ever yields a
non-empty result (every attempt raises or returns nothing), search
returns no asset rather than propagating any exception; (iii) the
provider loop skips a provider outright when its circuit is open, or
when its trailing 30-minute success rate is below 0.3 (the skipped
provider is never invoked: the loop proceeds directly to the rest of
the ordering). -/
theorem C7_exhaustion_not_error (w : World) (query : String) (prefer_video : Bool)
    (providerFn : String → Nat → Except String (Option String)) (now : ℤ)
    (hmiss : (get_cached_media w.cache query none now).1 = none) :
    ((∀ s ∈ searchOrder prefer_video, (w.breaker.is_open s now).1 = true) →
      (search_with_fallback w query prefer_video providerFn now).1 = none ∧
      (search_with_fallback w query prefer_video providerFn now).2 = w ∧
      (∀ g, search_with_fallback w query prefer_video providerFn now
          = search_with_fallback w query prefer_video g now)) ∧
    ((∀ s i url, providerFn s i ≠ Except.ok (some url)) →
      (search_with_fallback w query prefer_video providerFn now).1 = none) ∧
    (∀ (s : String) (rest : List String) (w2 : World),
      ((w2.breaker.is_open s now).1 = true →
        searchGo providerFn now (s :: rest) w2 = searchGo providerFn now rest w2) ∧
      ((w2.breaker.is_open s now).1 = false →
        (get_api_health w2.log s 30 now).success_rate < (3 : ℚ) / 10 →
        searchGo providerFn now (s :: rest) w2
          = searchGo providerFn now rest
              { w2 with breaker := (w2.breaker.is_open s now).2 })) := by
  have hcache2 := get_cached_media_miss_snd w.cache query none now hmiss
  refine ⟨?_, ?_, fun s rest w2 =>
    ⟨searchGo_cons_open providerFn now s rest w2,
     searchGo_cons_low_health providerFn now s rest w2⟩⟩
  · intro hopen
    have hs : ∀ g : String → Nat → Except String (Option String),
        search_with_fallback w query prefer_video g now = (none, w) := by
      intro g
      unfold search_with_fallback
      rw [hmiss]
      show searchGo g now (searchOrder prefer_video)
          { w with cache := (get_cached_media w.cache query none now).2 } = (none, w)
      rw [hcache2]
      exact searchGo_all_open g now (searchOrder prefer_video) w hopen
    exact ⟨by rw [hs providerFn], by rw [hs providerFn],
      fun g => by rw [hs providerFn, hs g]⟩
  · intro hf
    unfold search_with_fallback
    rw [hmiss]
    show (searchGo providerFn now (searchOrder prefer_video)
        { w with cache := (get_cached_media w.cache query none now).2 }).1 = none
    exact searchGo_no_url providerFn now (searchOrder prefer_video) hf _

/-- Breaker with every source's circuit freshly open, used in the C7
witness. -/
def breakerOpenW : CircuitBreaker :=
  { failure_threshold := 5, timeout := 60,
    failures := fun _ => some 5, last_failure_time := fun _ => some 90 }

set_option maxRecDepth 8192 in
/-- Witness for C7: empty cache; all circuits open at time 100 (last
failures at 90), and the always-raising provider. -/
theorem C7_exhaustion_not_error_witness :
    ((search_with_fallback { cache := [], log := [], breaker := breakerOpenW }
        "mars" false provDown 100).1 = none ∧
      (search_with_fallback { cache := [], log := [], breaker := breakerOpenW }
        "mars" false provDown 100).2 =
        { cache := [], log := [], breaker := breakerOpenW } ∧
      (∀ g, search_with_fallback { cache := [], log := [], breaker := breakerOpenW }
            "mars" false provDown 100
          = search_with_fallback { cache := [], log := [], breaker := breakerOpenW }
              "mars" false g 100)) ∧
    ((search_with_fallback { cache := [], log := [], breaker := CircuitBreaker.default }
        "mars" false provDown 100).1 = none) ∧
    (searchGo provDown 100 ["nasa"] { cache := [], log := [], breaker := breakerOpenW }
      = searchGo provDown 100 [] { cache := [], log := [], breaker := breakerOpenW }) :=
  ⟨(C7_exhaustion_not_error { cache := [], log := [], breaker := breakerOpenW }
      "mars" false provDown 100 (by decide)).1 (by decide),
   (C7_exhaustion_not_error { cache := [], log := [], breaker := CircuitBreaker.default }
      "mars" false provDown 100 (by decide)).2.1
    (fun s i url h => Except.noConfusion h),
   ((C7_exhaustion_not_error { cache := [], log := [], breaker := breakerOpenW }
      "mars" false provDown 100 (by decide)).2.2 "nasa" []
      { cache := [], log := [], breaker := breakerOpenW }).1 (by decide)⟩

end SpaceNews
